import Mathlib

/-!
Verification of the fin-manager import and reconciliation pipeline.

This file gives a shallow embedding of the core of the repository:
money parsing, the Banco Inter CSV row parsers, the generic CSV and JSON
row parsers, the handler factories, file-format detection, the
Transaction model validation and fingerprinting, the TransactionProcessor
batch validate-and-persist logic, and the import-job state machine, and
proves the stated properties about them.

Python semantics modelled explicitly:
  - strings are Lean strings (ASCII lowering and trimming approximate
    the Python str methods on the inputs of interest);
  - decimal.Decimal values are modelled by PyDec (finite rationals plus
    the special values NaN and signed infinity); the Decimal constructor
    raises decimal.InvalidOperation (an ArithmeticError, NOT a
    ValueError) on a malformed literal, which the embedding tracks via
    an exception-class field on errors;
  - database state is threaded explicitly through a DB record;
  - the external MD5 function of hashlib is kept abstract: functions
    that apply it take it as an argument.
-/

/-- Exception classes relevant to the pipeline.  decimal.InvalidOperation
derives from ArithmeticError, not from ValueError, a distinction the
handlers rely on. -/
inductive ExcClass where
  | valueError
  | typeError
  | invalidOperation
  deriving DecidableEq, Repr

/-- A raised Python exception: its class and its message. -/
structure PyExc where
  cls : ExcClass
  msg : String
  deriving DecidableEq, Repr

/-- Model of decimal.Decimal values: a finite value is kept as a signed
coefficient and a power-of-ten exponent, exactly as the decimal module
stores it (so fin 5000 (-2) is Decimal 50.00); the special values NaN
and signed infinity are separate constructors. -/
inductive PyDec where
  | fin (coeff : Int) (exp : Int)
  | nan
  | inf
  | ninf
  deriving DecidableEq, Repr

namespace PyDec

/-- Comparison with zero, as used by the handlers via the expression
amount < 0.  A finite decimal is negative exactly when its coefficient
is.  Ordering comparisons against a NaN raise decimal.InvalidOperation
in Python. -/
def ltZero : PyDec → Except PyExc Bool
  | fin m _ => .ok (decide (m < 0))
  | nan => .error ⟨.invalidOperation, "comparison involving NaN"⟩
  | inf => .ok false
  | ninf => .ok true

/-- Model of the builtin abs on Decimal values. -/
def pyAbs : PyDec → PyDec
  | fin m e => fin |m| e
  | nan => nan
  | inf => inf
  | ninf => inf

end PyDec

/-- ASCII lower-casing, modelling str.lower on the inputs of interest. -/
def pyLower (s : String) : String :=
  ⟨s.data.map Char.toLower⟩

/-- ASCII upper-casing, modelling str.upper on the inputs of interest. -/
def pyUpper (s : String) : String :=
  ⟨s.data.map Char.toUpper⟩

/-- Whitespace characters removed by str.strip with no argument. -/
def isSpaceChar (c : Char) : Bool :=
  c = ' ' ∨ c = '\t' ∨ c = '\n' ∨ c = '\r'

/-- Whitespace trimming at both ends, modelling str.strip. -/
def pyStrip (s : String) : String :=
  ⟨((s.data.dropWhile isSpaceChar).reverse.dropWhile isSpaceChar).reverse⟩

/-- Split a character list on every occurrence of a separator, as done
by str.split with a one-character separator. -/
def splitOnSep (sep : Char) : List Char → List (List Char)
  | [] => [[]]
  | c :: rest =>
    let r := splitOnSep sep rest
    if c = sep then [] :: r
    else
      match r with
      | h :: t => (c :: h) :: t
      | [] => [[c]]

/-- Python str.startswith for a single-character needle, on char lists. -/
def startsWithChar (c : Char) : List Char → Bool
  | [] => false
  | d :: _ => d == c

/-- Remove every occurrence of the characters of a needle string, as done
by str.replace with an empty replacement, for one-character needles. -/
def removeChar (c : Char) (s : List Char) : List Char :=
  s.filter (fun d => d ≠ c)

/-- Replace every occurrence of one character by another, as done by
str.replace for one-character needle and replacement. -/
def replaceChar (c r : Char) (s : List Char) : List Char :=
  s.map (fun d => if d = c then r else d)

/-- Lookup of a string key in a dict built from a key-value list, with
later duplicate entries overriding earlier ones (Python dict semantics). -/
def dictGet (row : List (String × String)) (key : String) : Option String :=
  (row.reverse.find? (fun kv => kv.1 == key)).map Prod.snd

/-- Model of dict.get(key, default-empty) used by the dialect handlers. -/
def dictGetD (row : List (String × String)) (key : String) : String :=
  (dictGet row key).getD ""

/-- Decide whether a character is an ASCII decimal digit. -/
def isDigitChar (c : Char) : Bool :=
  ('0' ≤ c ∧ c ≤ '9')

/-- Numeric value of an ASCII digit character. -/
def digitVal (c : Char) : Nat :=
  c.toNat - '0'.toNat

/-- Fold a digit-character list into the natural number it denotes. -/
def digitsToNat (ds : List Char) : Nat :=
  ds.foldl (fun acc c => 10 * acc + digitVal c) 0

/-- Parse a non-empty all-digit character list. -/
def parseDigits (ds : List Char) : Option Nat :=
  if ds ≠ [] ∧ ds.all isDigitChar then some (digitsToNat ds) else none

/-- Model of the builtin int applied to a string: optional surrounding
whitespace, optional sign, at least one digit. -/
def pyIntParse (s : String) : Option Int :=
  let t := (pyStrip s).data
  match t with
  | '-' :: rest => (parseDigits rest).map (fun n => -(n : Int))
  | '+' :: rest => (parseDigits rest).map (fun n => (n : Int))
  | rest => (parseDigits rest).map (fun n => (n : Int))

/-- Split a character list at the first occurrence of a separator, when
present. -/
def splitAtChar (c : Char) : List Char → Option (List Char × List Char)
  | [] => none
  | d :: rest =>
    if d = c then some ([], rest)
    else (splitAtChar c rest).map (fun p => (d :: p.1, p.2))

/-- Parse the mantissa of a decimal literal: digits with at most one
decimal point, at least one digit overall.  Returns the coefficient and
the number of fraction digits. -/
def parseMantissa (ds : List Char) : Option (Nat × Nat) :=
  match splitAtChar '.' ds with
  | none => (parseDigits ds).map (fun n => (n, 0))
  | some (ip, fp) =>
    if ip.all isDigitChar ∧ fp.all isDigitChar ∧ (ip ≠ [] ∨ fp ≠ []) then
      some (digitsToNat (ip ++ fp), fp.length)
    else none

/-- Parse an optional exponent suffix introduced by e or E. -/
def parseExponentPart (ds : List Char) : Option Int :=
  match ds with
  | '-' :: rest => (parseDigits rest).map (fun n => -(n : Int))
  | '+' :: rest => (parseDigits rest).map (fun n => (n : Int))
  | rest => (parseDigits rest).map (fun n => (n : Int))

/-- Split a decimal literal into mantissa and optional exponent at the
first e or E. -/
def splitExponent (ds : List Char) : List Char × Option (List Char) :=
  match splitAtChar 'e' (ds.map Char.toLower) with
  | some (m, _) => (ds.take m.length, some (ds.drop (m.length + 1)))
  | none => (ds, none)

/-- Parse the numeric (non-special) body of a Decimal literal, sign
already removed: a coefficient and a power-of-ten exponent. -/
def parseDecBody (ds : List Char) : Option (Nat × Int) :=
  match splitExponent ds with
  | (m, none) => (parseMantissa m).map (fun p => (p.1, -(p.2 : Int)))
  | (m, some e) => do
    let p ← parseMantissa m
    let n ← parseExponentPart e
    some (p.1, n - (p.2 : Int))

/-- Model of the decimal.Decimal constructor on a string: optional
surrounding whitespace, optional sign, then a numeric literal with
optional fraction and exponent, or one of the special values NaN, sNaN,
Inf, Infinity (case-insensitive).  A malformed literal raises
decimal.InvalidOperation - which is an ArithmeticError, not a
ValueError. -/
def pyDecimal (s : String) : Except PyExc PyDec :=
  let t := (pyStrip s).data
  let (neg, body) :=
    match t with
    | '-' :: rest => (true, rest)
    | '+' :: rest => (false, rest)
    | rest => (false, rest)
  let lowered := (body.map Char.toLower).asString
  if lowered = "nan" ∨ lowered = "snan" then .ok .nan
  else if lowered = "inf" ∨ lowered = "infinity" then
    .ok (if neg then .ninf else .inf)
  else
    match parseDecBody body with
    | some p => .ok (.fin (if neg then -(p.1 : Int) else (p.1 : Int)) p.2)
    | none => .error ⟨.invalidOperation, "ConversionSyntax"⟩

/-- Calendar dates as plain year-month-day triples (datetime.date). -/
structure SimpleDate where
  year : Nat
  month : Nat
  day : Nat
  deriving DecidableEq, Repr

/-- Gregorian leap-year rule, as implemented by the datetime module. -/
def isLeapYear (y : Nat) : Bool :=
  (y % 4 == 0 && y % 100 != 0) || y % 400 == 0

/-- Number of days of a month, as enforced by datetime.date. -/
def daysInMonth (y m : Nat) : Nat :=
  if m = 2 then (if isLeapYear y then 29 else 28)
  else if m = 4 ∨ m = 6 ∨ m = 9 ∨ m = 11 then 30
  else 31

/-- Validity of a date under the constraints of datetime.date. -/
def validDate (d : SimpleDate) : Bool :=
  1 ≤ d.year && d.year ≤ 9999 && 1 ≤ d.month && d.month ≤ 12 &&
    1 ≤ d.day && d.day ≤ daysInMonth d.year d.month

/-- Field orders supported by the date formats used in the handlers. -/
inductive DateOrder where
  | ymd
  | dmy
  | mdy
  deriving DecidableEq, Repr

/-- Parse a day or month component: one or two digits (strptime allows
both zero-padded and unpadded values). -/
def parseDayMonthPart (s : String) : Option Nat :=
  if s.length = 1 ∨ s.length = 2 then parseDigits s.data else none

/-- Parse a year component for the %Y directive: exactly four digits. -/
def parseYearPart (s : String) : Option Nat :=
  if s.length = 4 then parseDigits s.data else none

/-- Model of datetime.strptime(s, fmt).date() for the three-component
date formats used by the handlers: split on the separator, read the
components in the given order, and enforce calendar validity. -/
def strptimeDate (ord : DateOrder) (sep : Char) (s : String) : Option SimpleDate :=
  match (splitOnSep sep s.data).map List.asString with
  | [a, b, c] => do
    let d ←
      match ord with
      | .ymd => do
        let y ← parseYearPart a
        let m ← parseDayMonthPart b
        let dd ← parseDayMonthPart c
        some (SimpleDate.mk y m dd)
      | .dmy => do
        let dd ← parseDayMonthPart a
        let m ← parseDayMonthPart b
        let y ← parseYearPart c
        some (SimpleDate.mk y m dd)
      | .mdy => do
        let m ← parseDayMonthPart a
        let dd ← parseDayMonthPart b
        let y ← parseYearPart c
        some (SimpleDate.mk y m dd)
    if validDate d then some d else none
  | _ => none

/-- Character of a decimal digit. -/
def decDigitChar (d : Nat) : Char :=
  match d with
  | 0 => '0'
  | 1 => '1'
  | 2 => '2'
  | 3 => '3'
  | 4 => '4'
  | 5 => '5'
  | 6 => '6'
  | 7 => '7'
  | 8 => '8'
  | 9 => '9'
  | _ => '0'

/-- Digit characters of a positive natural number, most significant
first, computed with explicit fuel so that the kernel can evaluate it. -/
def renderNatAux : Nat → Nat → List Char
  | _, 0 => []
  | 0, _ + 1 => []
  | fuel + 1, n + 1 => renderNatAux fuel ((n + 1) / 10) ++ [decDigitChar ((n + 1) % 10)]

/-- Decimal rendering of a natural number without leading zeros, most
significant digit first, with 0 rendered as the single digit 0 -
matching str() of a Python int or of the integer part of a Decimal. -/
def renderNat (n : Nat) : List Char :=
  if n = 0 then ['0'] else renderNatAux n n

/-- Two-digit zero-padded rendering. -/
def pad2 (n : Nat) : List Char :=
  [decDigitChar (n / 10 % 10), decDigitChar (n % 10)]

/-- Four-digit zero-padded rendering. -/
def pad4 (n : Nat) : List Char :=
  [decDigitChar (n / 1000 % 10), decDigitChar (n / 100 % 10),
   decDigitChar (n / 10 % 10), decDigitChar (n % 10)]

/-- Rendering of a persisted transaction amount.  Amounts are stored by
DecimalField(max_digits=12, decimal_places=2), so a persisted amount is
an integer number of cents; str() of such a Decimal always prints two
fraction digits (quanta are normalized to two places by the database
round trip). -/
def renderCents (c : Int) : List Char :=
  (if c < 0 then ['-'] else []) ++ renderNat (c.natAbs / 100) ++
    '.' :: pad2 (c.natAbs % 100)

/-- ISO rendering of a date, as produced by date.isoformat(). -/
def isoChars (d : SimpleDate) : List Char :=
  pad4 d.year ++ '-' :: (pad2 d.month ++ '-' :: pad2 d.day)

/-- Transaction types of the Transaction model choices. -/
inductive TType where
  | income
  | expense
  | transfer
  deriving DecidableEq, Repr

/-- The lower-cased database value of a transaction type, as produced by
transaction.transaction_type.lower(). -/
def TType.lowerStr : TType → String
  | .income => "income"
  | .expense => "expense"
  | .transfer => "transfer"

/-- In-memory Transaction model instance (persisted or not).  Foreign
keys are held as optional entity ids; the format-specific side-channel
hint attributes set by the handlers are modelled as explicit optional
fields; _tags_to_set is carried separately by the processor. -/
structure Draft where
  userId : Nat
  ttype : TType
  amountCents : Int
  description : Option String
  occurredAt : SimpleDate
  account : Option Nat := none
  creditCard : Option Nat := none
  category : Option Nat := none
  subcategory : Option Nat := none
  installmentsTotal : Nat := 1
  installmentNumber : Nat := 1
  installmentGroupId : Option String := none
  origin : String := ""
  hash : Option String := none
  hintAccount : Option String := none
  hintCreditCard : Option String := none
  hintCategory : Option String := none
  hintSubcategory : Option String := none
  hintTags : Option (String ⊕ List String) := none
  deriving DecidableEq, Repr

/-- Model of Transaction.clean: reject a transaction linked to both an
account and a credit card; enforce the installment bounds; assign a
fresh installment group id when installments are used and none is set.
The fresh uuid4 value is supplied by the caller. -/
def clean (freshId : String) (t : Draft) : Except String Draft :=
  if t.account.isSome ∧ t.creditCard.isSome then
    .error ("A transaction cannot be associated with both an account and a " ++
      "credit card. Please choose either an account or a credit card.")
  else if t.installmentsTotal > 1 ∨ t.installmentNumber > 1 then
    if t.installmentsTotal = 0 then
      .error "installments_total must be greater than 0."
    else if t.installmentNumber = 0 then
      .error "installment_number must be greater than 0."
    else if t.installmentNumber > t.installmentsTotal then
      .error "installment_number cannot be greater than installments_total."
    else if t.installmentGroupId.isNone then
      .ok { t with installmentGroupId := some freshId }
    else .ok t
  else .ok t

/-- Declared field constraints checked by Django clean_fields for this
model: the amount fits DecimalField(max_digits=12), the date is a valid
calendar date, and the bounded CharFields fit their max_length. -/
def cleanFields (t : Draft) : Except String Draft :=
  if t.amountCents.natAbs ≥ 10 ^ 12 then
    .error "Ensure that there are no more than 12 digits in total."
  else if ¬ validDate t.occurredAt then
    .error "invalid date."
  else if (t.description.getD "").length > 255 then
    .error "Ensure description has at most 255 characters."
  else if t.origin.length > 255 then
    .error "Ensure origin has at most 255 characters."
  else .ok t

/-- Model of Model.full_clean: field validation followed by clean. -/
def full_clean (freshId : String) (t : Draft) : Except String Draft := do
  let t ← cleanFields t
  clean freshId t

/-- Duplicate-detection fingerprint input, from Transaction._calculate_hash:
the string amount-pipe-description-pipe-isodate, with a null description
contributing the empty string. -/
def hashInput (t : Draft) : List Char :=
  renderCents t.amountCents ++ '|' :: ((t.description.getD "").data ++
    '|' :: isoChars t.occurredAt)

/-- Model of Transaction._calculate_hash.  The MD5 function of hashlib
is external library code and is passed in abstractly. -/
def calculate_hash (md5 : List Char → String) (t : Draft) : String :=
  md5 (hashInput t)

/-- Model of Transaction.save: run full validation, recompute the
fingerprint, then write.  Returns the stored row. -/
def Transaction.save (md5 : List Char → String) (freshId : String)
    (t : Draft) : Except String Draft := do
  let t ← full_clean freshId t
  .ok { t with hash := some (calculate_hash md5 t) }

/-- Unary minus on Decimal values. -/
def PyDec.pyNeg : PyDec → PyDec
  | .fin m e => .fin (-m) e
  | .nan => .nan
  | .inf => .ninf
  | .ninf => .inf

/-- Core fields of a draft transaction as constructed by a format
handler (amounts still carry the full Decimal value at this stage). -/
structure HandlerTxn where
  userId : Nat
  ttype : TType
  amount : PyDec
  description : String
  occurredAt : SimpleDate
  installmentsTotal : Nat := 1
  installmentNumber : Nat := 1
  deriving DecidableEq, Repr

namespace BIBank

/-- Model of BancoInterBankStatementCsvHandler._parse_date: strict
DD/MM/YYYY via strptime. -/
def parse_date (s : String) : Option SimpleDate :=
  strptimeDate .dmy '/' (pyStrip s)

/-- Model of BancoInterBankStatementCsvHandler._parse_amount: strip,
take a leading minus sign, drop thousands dots, turn the decimal comma
into a dot, then convert via Decimal.  The source wraps the conversion
in an except clause for ValueError and TypeError, but a malformed
literal raises decimal.InvalidOperation, which that clause does not
catch; the model therefore propagates the conversion error as raised. -/
def parse_amount (valorStr : String) : Except PyExc PyDec := do
  let v := pyStrip valorStr
  let (isNeg, v) :=
    if startsWithChar '-' v.data then (true, pyStrip (v.data.drop 1).asString)
    else (false, v)
  let v := (replaceChar ',' '.' (removeChar '.' v.data)).asString
  let a ← pyDecimal v
  .ok (if isNeg then a.pyNeg else a)

/-- Model of BancoInterBankStatementCsvHandler._parse_transaction_row.
Bank-statement sign convention: a negative amount is an EXPENSE carrying
the absolute value, otherwise an INCOME. -/
def parse_transaction_row (row : List (String × String)) (userId : Nat)
    (rowNum : Nat) : Except PyExc HandlerTxn := do
  let dateStr := pyStrip (dictGetD row "data lançamento")
  if dateStr = "" then
    .error ⟨.valueError,
      "Row " ++ toString rowNum ++ ": Missing required field: data lançamento"⟩
  else
    match parse_date dateStr with
    | none => .error ⟨.valueError,
        "Row " ++ toString rowNum ++ ": Invalid date format: " ++ dateStr⟩
    | some occurredAt => do
      let valorStr := pyStrip (dictGetD row "valor")
      if valorStr = "" then
        .error ⟨.valueError,
          "Row " ++ toString rowNum ++ ": Missing required field: valor"⟩
      else do
        let amount ← parse_amount valorStr
        let isNegAmt ← amount.ltZero
        let (ttype, amount) :=
          if isNegAmt then (TType.expense, amount.pyAbs)
          else (TType.income, amount)
        let description := pyStrip (dictGetD row "descrição")
        .ok { userId, ttype, amount, description, occurredAt }

end BIBank

namespace BICredit

/-- Model of BancoInterCreditCardCsvHandler._parse_date: strict
DD/MM/YYYY via strptime. -/
def parse_date (s : String) : Option SimpleDate :=
  strptimeDate .dmy '/' (pyStrip s)

/-- Remove every occurrence of the substring R-dollar, as done by
str.replace scanning left to right. -/
def removeRS : List Char → List Char
  | [] => []
  | 'R' :: '$' :: rest => removeRS rest
  | c :: rest => c :: removeRS rest

/-- Model of BancoInterCreditCardCsvHandler._parse_amount: drop the
R-dollar currency marker, strip, take a leading minus sign, drop
thousands dots, turn the decimal comma into a dot, convert via Decimal.
As in the bank-statement handler, the except clause for ValueError and
TypeError never fires because Decimal raises InvalidOperation. -/
def parse_amount (valorStr : String) : Except PyExc PyDec := do
  let v := pyStrip (removeRS valorStr.data).asString
  let (isNeg, v) :=
    if startsWithChar '-' v.data then (true, pyStrip (v.data.drop 1).asString)
    else (false, v)
  let v := (replaceChar ',' '.' (removeChar '.' v.data)).asString
  let a ← pyDecimal v
  .ok (if isNeg then a.pyNeg else a)

/-- Model of BancoInterCreditCardCsvHandler._parse_transaction_row.
Credit-card-bill sign convention: a negative amount is an INCOME
(refund) carrying the absolute value, otherwise an EXPENSE. -/
def parse_transaction_row (row : List (String × String)) (userId : Nat)
    (rowNum : Nat) : Except PyExc HandlerTxn := do
  let dateStr := pyStrip (dictGetD row "data")
  if dateStr = "" then
    .error ⟨.valueError,
      "Row " ++ toString rowNum ++ ": Missing required field: data"⟩
  else
    match parse_date dateStr with
    | none => .error ⟨.valueError,
        "Row " ++ toString rowNum ++ ": Invalid date format: " ++ dateStr⟩
    | some occurredAt => do
      let valorStr := pyStrip (dictGetD row "valor")
      if valorStr = "" then
        .error ⟨.valueError,
          "Row " ++ toString rowNum ++ ": Missing required field: valor"⟩
      else do
        let amount ← parse_amount valorStr
        let isNegAmt ← amount.ltZero
        let (ttype, amount) :=
          if isNegAmt then (TType.income, amount.pyAbs)
          else (TType.expense, amount)
        let description := pyStrip (dictGetD row "lançamento")
        .ok { userId, ttype, amount, description, occurredAt }

end BICredit

namespace DefaultCSV

/-- Synonym lists of the generic CSV handler, one per logical field. -/
def DATE_COLUMNS : List String := ["date", "occurred_at", "transaction_date", "occurred_date"]

/-- Recognized amount column names. -/
def AMOUNT_COLUMNS : List String := ["amount", "value", "total"]

/-- Recognized description column names. -/
def DESCRIPTION_COLUMNS : List String := ["description", "name", "memo", "note"]

/-- Recognized transaction-type column names. -/
def TRANSACTION_TYPE_COLUMNS : List String := ["transaction_type", "type"]

/-- Recognized account column names. -/
def ACCOUNT_COLUMNS : List String := ["account", "account_id", "account_name"]

/-- Recognized credit-card column names. -/
def CREDIT_CARD_COLUMNS : List String := ["credit_card", "credit_card_id", "credit_card_name"]

/-- Recognized category column names. -/
def CATEGORY_COLUMNS : List String := ["category", "category_name"]

/-- Recognized subcategory column names. -/
def SUBCATEGORY_COLUMNS : List String := ["subcategory", "subcategory_name"]

/-- Recognized tag column names. -/
def TAGS_COLUMNS : List String := ["tags", "tag"]

/-- Recognized total-installments column names. -/
def INSTALLMENTS_TOTAL_COLUMNS : List String := ["installments_total", "total_installments"]

/-- Recognized installment-number column names. -/
def INSTALLMENT_NUMBER_COLUMNS : List String := ["installment_number", "current_installment"]

/-- Normalization of a CSV row dict: keys are stripped and lower-cased,
entries with an empty value are dropped (the comprehension filters on
value truthiness). -/
def normalizeRow (row : List (String × String)) : List (String × String) :=
  (row.filter (fun kv => kv.2 ≠ "")).map (fun kv => (pyLower (pyStrip kv.1), kv.2))

/-- Model of DefaultCSVHandler._find_column_value: try each recognized
column name in order; a present column whose stripped value is empty
does not stop the search. -/
def find_column_value (row : List (String × String)) : List String → Option String
  | [] => none
  | c :: rest =>
    match dictGet row (pyLower c) with
    | some v => if pyStrip v ≠ "" then some (pyStrip v) else find_column_value row rest
    | none => find_column_value row rest

/-- Ordered date formats tried by DefaultCSVHandler._parse_date. -/
def DATE_FORMATS : List (DateOrder × Char) :=
  [(.ymd, '-'), (.dmy, '/'), (.mdy, '/'), (.ymd, '/'), (.dmy, '-'), (.mdy, '-')]

/-- Model of DefaultCSVHandler._parse_date: try each format in order. -/
def parse_date (s : String) : Option SimpleDate :=
  let t := pyStrip s
  DATE_FORMATS.firstM (fun f => strptimeDate f.1 f.2 t)

/-- Model of DefaultCSVHandler._parse_transaction_type: upper-case and
match against the recognized names, raising ValueError otherwise. -/
def parse_transaction_type (s : String) (rowNum : Nat) : Except PyExc TType :=
  let t := pyUpper (pyStrip s)
  if t = "INCOME" ∨ t = "I" ∨ t = "IN" then .ok .income
  else if t = "EXPENSE" ∨ t = "E" ∨ t = "EX" ∨ t = "EXP" then .ok .expense
  else if t = "TRANSFER" ∨ t = "T" ∨ t = "TR" ∨ t = "TRANS" then .ok .transfer
  else .error ⟨.valueError,
    "Row " ++ toString rowNum ++ ": Invalid transaction type: " ++ t⟩

/-- Draft plus the csv-prefixed side-channel hint attributes attached by
the generic CSV handler. -/
structure Parsed where
  txn : HandlerTxn
  accountIdentifier : Option String := none
  creditCardIdentifier : Option String := none
  categoryName : Option String := none
  subcategoryName : Option String := none
  tagsValue : Option String := none
  deriving DecidableEq, Repr

/-- Model of DefaultCSVHandler._parse_transaction_row.  When no explicit
type column is present the type is inferred from the amount sign with
the credit-card-bill convention: negative means INCOME carrying the
absolute value, otherwise EXPENSE.  The amount conversion failure mode
is as in the dialect handlers: Decimal raises InvalidOperation, which
the except clause for ValueError and TypeError does not catch. -/
def parse_transaction_row (row : List (String × String)) (userId : Nat)
    (rowNum : Nat) : Except PyExc Parsed := do
  let nrow := normalizeRow row
  match find_column_value nrow DATE_COLUMNS with
  | none => .error ⟨.valueError,
      "Row " ++ toString rowNum ++ ": Missing required field: date"⟩
  | some dateValue =>
    match parse_date dateValue with
    | none => .error ⟨.valueError,
        "Row " ++ toString rowNum ++ ": Invalid date format: " ++ dateValue⟩
    | some occurredAt =>
      match find_column_value nrow AMOUNT_COLUMNS with
      | none => .error ⟨.valueError,
          "Row " ++ toString rowNum ++ ": Missing required field: amount"⟩
      | some amountValue => do
        let amount ←
          match pyDecimal amountValue with
          | .ok a => .ok a
          | .error e =>
            if e.cls = .valueError ∨ e.cls = .typeError then
              .error ⟨.valueError,
                "Row " ++ toString rowNum ++ ": Invalid amount: " ++ amountValue⟩
            else .error e
        let (ttype, amount) ←
          match find_column_value nrow TRANSACTION_TYPE_COLUMNS with
          | none => do
            let isNegAmt ← amount.ltZero
            if isNegAmt then .ok (TType.income, amount.pyAbs)
            else .ok (TType.expense, amount)
          | some tv => do
            let tt ← parse_transaction_type tv rowNum
            .ok (tt, amount)
        let description := (find_column_value nrow DESCRIPTION_COLUMNS).getD ""
        let installmentsTotal :=
          match (find_column_value nrow INSTALLMENTS_TOTAL_COLUMNS).bind
              (fun v => pyIntParse v) with
          | some n => if n < 1 then 1 else n.toNat
          | none => 1
        let installmentNumber :=
          match (find_column_value nrow INSTALLMENT_NUMBER_COLUMNS).bind
              (fun v => pyIntParse v) with
          | some n => if n < 1 then 1 else n.toNat
          | none => 1
        .ok { txn := { userId, ttype, amount, description, occurredAt,
                       installmentsTotal, installmentNumber },
              accountIdentifier := find_column_value nrow ACCOUNT_COLUMNS,
              creditCardIdentifier := find_column_value nrow CREDIT_CARD_COLUMNS,
              categoryName := find_column_value nrow CATEGORY_COLUMNS,
              subcategoryName := find_column_value nrow SUBCATEGORY_COLUMNS,
              tagsValue := find_column_value nrow TAGS_COLUMNS }

/-- Row loop of DefaultCSVHandler.parse_transactions_from_file: a row
whose parse raises ValueError is skipped with a warning and processing
continues; any other exception escapes the loop. -/
def rowLoop (userId : Nat) : Nat → List (List (String × String)) →
    Except PyExc (List Parsed)
  | _, [] => .ok []
  | n, r :: rest =>
    match parse_transaction_row r userId n with
    | .ok t => (rowLoop userId (n + 1) rest).map (fun l => t :: l)
    | .error e =>
      if e.cls = .valueError then rowLoop userId (n + 1) rest
      else .error e

/-- Model of DefaultCSVHandler.parse_transactions_from_file on the data
rows of an already-read file (row numbering starts at 2, after the
header).  An exception escaping the row loop is caught by the
whole-file handler and re-raised as a ValueError wrapping the message -
discarding every draft. -/
def parse_transactions_from_file (filename : String) (userId : Nat)
    (rows : List (List (String × String))) : Except PyExc (List Parsed) :=
  match rowLoop userId 2 rows with
  | .ok l => .ok l
  | .error e =>
    .error ⟨.valueError, "Error reading CSV file " ++ filename ++ ": " ++ e.msg⟩

end DefaultCSV

/-- Scalar JSON values as produced by json.load (arrays and nested
objects can also appear but no modelled field reads them). Numbers keep
the int/float distinction of the json module; a float is held as a
scaled integer mantissa. -/
inductive JVal where
  | jstr (s : String)
  | jint (n : Int)
  | jnum (mantissa : Int) (scale : Nat)
  | jbool (b : Bool)
  | jnull
  deriving DecidableEq, Repr

/-- Decimal string of a Python int. -/
def renderInt (n : Int) : String :=
  ((if n < 0 then ['-'] else []) ++ renderNat n.natAbs).asString

/-- Model of the builtin str on scalar JSON values.  A float prints in
plain decimal notation with at least one fraction digit, the form repr
produces for the short decimal literals that occur in import files. -/
def JVal.pyStr : JVal → String
  | .jstr s => s
  | .jint n => renderInt n
  | .jnum m sc =>
    if sc = 0 then renderInt m ++ ".0"
    else ((if m < 0 then ['-'] else []) ++ renderNat (m.natAbs / 10 ^ sc) ++
      '.' :: (List.range sc).map
        (fun i => decDigitChar (m.natAbs / 10 ^ (sc - 1 - i) % 10))).asString
  | .jbool b => if b then "True" else "False"
  | .jnull => "None"

/-- Python truthiness of a scalar JSON value. -/
def JVal.truthy : JVal → Bool
  | .jstr s => s ≠ ""
  | .jint n => n ≠ 0
  | .jnum m _ => m ≠ 0
  | .jbool b => b
  | .jnull => false

/-- Membership of a key in a JSON object (dict), last entry winning. -/
def jsonGet (item : List (String × JVal)) (key : String) : Option JVal :=
  (item.reverse.find? (fun kv => kv.1 == key)).map Prod.snd

/-- Model of item.get(a) or item.get(b) chains: the first present and
truthy value wins (a present falsy value falls through the or). -/
def jsonGetTruthy (item : List (String × JVal)) : List String → Option JVal
  | [] => none
  | k :: rest =>
    match jsonGet item k with
    | some v => if v.truthy then some v else jsonGetTruthy item rest
    | none => jsonGetTruthy item rest

namespace DefaultJSON

/-- Ordered date formats tried by DefaultJsonHandler._parse_date (same
list as the generic CSV handler). -/
def parse_date (s : String) : Option SimpleDate :=
  let t := pyStrip s
  DefaultCSV.DATE_FORMATS.firstM (fun f => strptimeDate f.1 f.2 t)

/-- Draft plus the json-prefixed side-channel hint attributes attached
by the generic JSON handler (raw JSON values). -/
structure Parsed where
  txn : HandlerTxn
  accountIdentifier : Option JVal := none
  creditCardIdentifier : Option JVal := none
  categoryName : Option JVal := none
  subcategoryName : Option JVal := none
  tagsValue : Option JVal := none
  deriving DecidableEq, Repr

/-- Model of DefaultJsonHandler._parse_transaction_item.  The type is
always inferred from the amount sign with the credit-card-bill
convention: negative means INCOME carrying the absolute value,
otherwise EXPENSE.  Installment fields must be ints at least 1 to be
used; an installment number above the total raises ValueError.  The
amount conversion failure mode is as in the CSV handlers: Decimal
raises InvalidOperation, which the except clause for ValueError and
TypeError does not catch. -/
def parse_transaction_item (item : List (String × JVal)) (userId : Nat)
    (itemNum : Nat) : Except PyExc Parsed := do
  match ["name", "date", "total"].find? (fun f => (jsonGet item f).isNone) with
  | some f => .error ⟨.valueError,
      "Transaction " ++ toString itemNum ++ ": Missing required field: " ++ f⟩
  | none => do
    let dateValue := pyStrip ((jsonGet item "date").getD .jnull).pyStr
    match parse_date dateValue with
    | none => .error ⟨.valueError,
        "Transaction " ++ toString itemNum ++ ": Invalid date format: " ++
          dateValue ++ ". Expected format: YYYY-MM-DD"⟩
    | some occurredAt => do
      let totalVal := ((jsonGet item "total").getD .jnull).pyStr
      let amount ←
        match pyDecimal totalVal with
        | .ok a => .ok a
        | .error e =>
          if e.cls = .valueError ∨ e.cls = .typeError then
            .error ⟨.valueError,
              "Transaction " ++ toString itemNum ++ ": Invalid amount: " ++ totalVal⟩
          else .error e
      let isNegAmt ← amount.ltZero
      let (ttype, amount) :=
        if isNegAmt then (TType.income, amount.pyAbs)
        else (TType.expense, amount)
      let installmentsTotal :=
        match (jsonGet item "total_installments").getD (.jint 1) with
        | .jint n => if n < 1 then 1 else n.toNat
        | _ => 1
      let installmentNumber :=
        match (jsonGet item "current_installment").getD (.jint 1) with
        | .jint n => if n < 1 then 1 else n.toNat
        | _ => 1
      if installmentNumber > installmentsTotal then
        .error ⟨.valueError,
          "Transaction " ++ toString itemNum ++ ": current_installment cannot " ++
            "be greater than total_installments"⟩
      else
        let description := pyStrip ((jsonGet item "name").getD .jnull).pyStr
        .ok { txn := { userId, ttype, amount, description, occurredAt,
                       installmentsTotal, installmentNumber },
              accountIdentifier :=
                jsonGetTruthy item ["account", "account_id", "account_name"],
              creditCardIdentifier :=
                jsonGetTruthy item ["credit_card", "credit_card_id", "credit_card_name"],
              categoryName := jsonGetTruthy item ["category", "category_name"],
              subcategoryName := jsonGetTruthy item ["subcategory", "subcategory_name"],
              tagsValue := jsonGetTruthy item ["tags", "tag"] }

end DefaultJSON

/-- Chain-of-responsibility scan with detector exceptions caught: an
erroring detector is treated the same as a non-matching one and the
iteration continues.  Returns the index of the first handler whose
detection returned true. -/
def selectCatching {α : Type} : List (α → Except PyExc Bool) → α → Option Nat
  | [], _ => none
  | h :: rest, input =>
    match h input with
    | .ok true => some 0
    | _ => (selectCatching rest input).map (fun i => i + 1)

/-- Chain-of-responsibility scan of CSVImportFactory.create_handler: the
detection calls are NOT wrapped in a try-except, so an exception raised
by a candidate detector propagates out of the scan. -/
def csvSelect {α : Type} : List (α → Except PyExc Bool) → α → Except PyExc (Option Nat)
  | [], _ => .ok none
  | h :: rest, input =>
    match h input with
    | .error e => .error e
    | .ok true => .ok (some 0)
    | .ok false => (csvSelect rest input).map (Option.map (fun i => i + 1))

/-- Which handler a factory chose: a registered handler by index, or the
generic fallback handler. -/
inductive HandlerChoice where
  | registered (i : Nat)
  | generic
  deriving DecidableEq, Repr

namespace JSONImportFactory

/-- Model of JSONImportFactory.create_handler: try the registered
handlers in order with detector exceptions caught and logged; fall back
to the generic DefaultJsonHandler when none matches. -/
def create_handler {α : Type} (handlers : List (α → Except PyExc Bool))
    (input : α) : HandlerChoice :=
  match selectCatching handlers input with
  | some i => .registered i
  | none => .generic

end JSONImportFactory

namespace XLSXImportFactory

/-- Model of XLSXImportFactory.create_handler: try the registered
handlers in order with detector exceptions caught and logged; with no
generic fallback, raise ValueError when none matches. -/
def create_handler {α : Type} (handlers : List (α → Except PyExc Bool))
    (path : String) (input : α) : Except PyExc HandlerChoice :=
  match selectCatching handlers input with
  | some i => .ok (.registered i)
  | none => .error ⟨.valueError, "No handler could process XLSX file: " ++ path⟩

end XLSXImportFactory

namespace CSVImportFactory

/-- Model of CSVImportFactory.create_handler: read the header row (a
failure there propagates), then try the registered handlers in order -
without any try-except around the detection calls - and fall back to
the generic DefaultCSVHandler when none matches. -/
def create_handler {α : Type} (readHeaders : Except PyExc α)
    (handlers : List (α → Except PyExc Bool)) : Except PyExc HandlerChoice := do
  let headers ← readHeaders
  match ← csvSelect handlers headers with
  | some i => .ok (.registered i)
  | none => .ok .generic

end CSVImportFactory

/-- Suffix test on strings, modelling str.endswith. -/
def endsWithStr (suffix s : String) : Bool :=
  suffix.data.isSuffixOf s.data

namespace ImportService

/-- Model of ImportService._detect_file_format: match the lower-cased
path suffix, defaulting to csv for anything else. -/
def detect_file_format (filePath : String) : String :=
  let l := pyLower filePath
  if endsWithStr ".xlsx" l then "xlsx"
  else if endsWithStr ".json" l then "json"
  else if endsWithStr ".csv" l then "csv"
  else "csv"

end ImportService

namespace FM

/-- Stored account row. -/
structure Account where
  id : Nat
  userId : Nat
  name : String
  deriving DecidableEq, Repr

/-- Stored credit-card row. -/
structure CreditCard where
  id : Nat
  userId : Nat
  name : String
  deriving DecidableEq, Repr

/-- Transaction-type polarity of a category. -/
inductive CatType where
  | income
  | expense
  deriving DecidableEq, Repr

/-- Stored category row. -/
structure Category where
  id : Nat
  userId : Nat
  name : String
  ttype : CatType
  deriving DecidableEq, Repr

/-- Stored subcategory row. -/
structure Subcategory where
  id : Nat
  userId : Nat
  name : String
  categoryId : Nat
  deriving DecidableEq, Repr

/-- Stored tag row. -/
structure Tag where
  id : Nat
  userId : Nat
  name : String
  deriving DecidableEq, Repr

/-- Stored transaction row together with its assigned tag set. -/
structure SavedTxn where
  txn : Draft
  tagIds : List Nat
  deriving DecidableEq, Repr

/-- The database state visible to the processor, with a fresh-id source
for created rows. -/
structure DB where
  accounts : List Account := []
  creditCards : List CreditCard := []
  categories : List Category := []
  subcategories : List Subcategory := []
  tags : List Tag := []
  transactions : List SavedTxn := []
  nextId : Nat := 1
  deriving DecidableEq, Repr

/-- Account and credit-card defaults plus source file name carried by
the ImportedReport passed to the processor. -/
structure ReportInfo where
  account : Option Nat := none
  creditCard : Option Nat := none
  fileName : String := ""
  deriving DecidableEq, Repr

end FM

namespace TransactionProcessor

open FM

/-- Metadata truthiness filter of _extract_metadata: a hint attribute
whose value is falsy (absent or empty) yields no metadata entry. -/
def getHint (o : Option String) : Option String :=
  match o with
  | some s => if s = "" then none else some s
  | none => none

/-- Truthiness filter for the raw tags value (an empty string or an
empty list is falsy). -/
def getTagsHint (o : Option (String ⊕ List String)) : Option (String ⊕ List String) :=
  match o with
  | some (.inl s) => if s = "" then none else some (.inl s)
  | some (.inr l) => if l = [] then none else some (.inr l)
  | none => none

/-- Model of TransactionProcessor._match_account: try the identifier as
a numeric id scoped to the user, then fall back to a case-insensitive
name match; an unmatched identifier yields nothing. -/
def match_account (db : DB) (user : Nat) (identifier : String) : Option Account :=
  (match pyIntParse identifier with
   | some n => db.accounts.find? (fun a => a.userId = user ∧ (a.id : Int) = n)
   | none => none) <|>
    db.accounts.find? (fun a => a.userId = user ∧ pyLower a.name = pyLower identifier)

/-- Model of TransactionProcessor._match_credit_card, mirroring the
account matching. -/
def match_credit_card (db : DB) (user : Nat) (identifier : String) : Option CreditCard :=
  (match pyIntParse identifier with
   | some n => db.creditCards.find? (fun c => c.userId = user ∧ (c.id : Int) = n)
   | none => none) <|>
    db.creditCards.find? (fun c => c.userId = user ∧ pyLower c.name = pyLower identifier)

/-- Model of TransactionProcessor._match_category_by_name: find the
first category of the user with that case-insensitive name and
polarity, or CREATE one - a database write issued while validating. -/
def match_category_by_name (db : DB) (user : Nat) (name : String)
    (ctype : CatType) : Category × DB :=
  match db.categories.find?
      (fun c => c.userId = user ∧ pyLower c.name = pyLower name ∧ c.ttype = ctype) with
  | some c => (c, db)
  | none =>
    let c : Category := ⟨db.nextId, user, name, ctype⟩
    (c, { db with categories := db.categories ++ [c], nextId := db.nextId + 1 })

/-- Model of TransactionProcessor._match_subcategory_by_name: find the
first subcategory of the user with that case-insensitive name under the
parent category, or CREATE one. -/
def match_subcategory_by_name (db : DB) (user : Nat) (name : String)
    (categoryId : Nat) : Subcategory × DB :=
  match db.subcategories.find?
      (fun s => s.userId = user ∧ pyLower s.name = pyLower name ∧
        s.categoryId = categoryId) with
  | some s => (s, db)
  | none =>
    let s : Subcategory := ⟨db.nextId, user, name, categoryId⟩
    (s, { db with subcategories := db.subcategories ++ [s], nextId := db.nextId + 1 })

/-- Tag-name list normalization of _match_tags: split a comma-separated
string dropping blank entries; for a list, keep the truthy raw entries
and strip them. -/
def tagNameList : String ⊕ List String → List String
  | .inl s => (((splitOnSep ',' s.data).map List.asString).map pyStrip).filter (fun n => n ≠ "")
  | .inr l => (l.filter (fun n => n ≠ "")).map pyStrip

/-- Find the first tag of the user with the given case-insensitive name,
or CREATE one. -/
def matchOrCreateTag (db : DB) (user : Nat) (name : String) : Tag × DB :=
  match db.tags.find? (fun t => t.userId = user ∧ pyLower t.name = pyLower name) with
  | some t => (t, db)
  | none =>
    let t : Tag := ⟨db.nextId, user, name⟩
    (t, { db with tags := db.tags ++ [t], nextId := db.nextId + 1 })

/-- Model of TransactionProcessor._match_tags over a normalized name
list. -/
def match_tags_go (user : Nat) : DB → List String → List Tag × DB
  | db, [] => ([], db)
  | db, n :: rest =>
    let (t, db') := matchOrCreateTag db user n
    let (ts, db'') := match_tags_go user db' rest
    (t :: ts, db'')

/-- Model of TransactionProcessor._match_tags. -/
def match_tags (db : DB) (user : Nat) (raw : String ⊕ List String) : List Tag × DB :=
  match_tags_go user db (tagNameList raw)

/-- Account-resolution step of the validation loop: match a provided
identifier against the stored accounts, otherwise fall back to the
default of the import report; an unmatched identifier leaves the link
unset. -/
def resolveAccount (db : DB) (user : Nat) (repAcc : Option Nat) (t : Draft) : Draft :=
  match getHint t.hintAccount with
  | some ident =>
    match match_account db user ident with
    | some a => { t with account := some a.id }
    | none => t
  | none =>
    match repAcc with
    | some a => { t with account := some a }
    | none => t

/-- Credit-card-resolution step, mirroring the account step. -/
def resolveCreditCard (db : DB) (user : Nat) (repCard : Option Nat) (t : Draft) : Draft :=
  match getHint t.hintCreditCard with
  | some ident =>
    match match_credit_card db user ident with
    | some c => { t with creditCard := some c.id }
    | none => t
  | none =>
    match repCard with
    | some c => { t with creditCard := some c }
    | none => t

/-- Category-resolution step: polarity follows the transaction type,
and an unmatched name CREATES a category. -/
def resolveCategory (db : DB) (user : Nat) (t : Draft) : Draft × DB :=
  match getHint t.hintCategory with
  | some name =>
    let ctype :=
      if t.ttype.lowerStr = "income" then CatType.income else CatType.expense
    let (c, db') := match_category_by_name db user name ctype
    ({ t with category := some c.id }, db')
  | none => (t, db)

/-- Subcategory-resolution step: without a resolved parent category
this contributes a per-row error but processing of the row continues;
an unmatched name under a parent CREATES a subcategory. -/
def resolveSubcategory (db : DB) (user : Nat) (t : Draft) (idx : Nat) :
    List String × Draft × DB :=
  match getHint t.hintSubcategory with
  | some name =>
    match t.category with
    | none =>
      (["Transaction " ++ toString idx ++ ": Cannot set subcategory without category"],
        t, db)
    | some parentId =>
      let (s, db') := match_subcategory_by_name db user name parentId
      ([], { t with subcategory := some s.id }, db')
  | none => ([], t, db)

/-- Tag step run only after validation passed: match-or-create every
named tag and record the ids to assign after the save. -/
def applyTags (db : DB) (user : Nat) (t : Draft) : List Nat × DB :=
  match getTagsHint t.hintTags with
  | some raw =>
    let (ts, db') := match_tags db user raw
    (ts.map (fun tg => tg.id), db')
  | none => ([], db)

/-- Validation-phase processing of one draft (the body of the first
loop of process_transactions): resolve entities - creating categories,
subcategories and tags as needed - then run full validation.  Returns
the error strings contributed by this draft, the cleaned draft with its
tag set when it was added to the processed list, and the updated
database. -/
def processOne (freshId : String) (user : Nat) (repAcc repCard : Option Nat)
    (db : DB) (t : Draft) (idx : Nat) :
    List String × Option (Draft × List Nat) × DB :=
  let t := resolveAccount db user repAcc t
  let t := resolveCreditCard db user repCard t
  let (t, db) := resolveCategory db user t
  let (subErrs, t, db) := resolveSubcategory db user t idx
  match full_clean freshId t with
  | .error e => (subErrs ++ ["Transaction " ++ toString idx ++ ": " ++ e], none, db)
  | .ok t1 =>
    let (tagIds, db) := applyTags db user t1
    (subErrs, some (t1, tagIds), db)

/-- The whole validation phase: process every draft in order, indexing
from 1, accumulating errors, processed drafts, and database writes. -/
def phase1 (freshId : String) (user : Nat) (repAcc repCard : Option Nat) :
    DB → Nat → List Draft → List String × List (Draft × List Nat) × DB
  | db, _, [] => ([], [], db)
  | db, idx, t :: rest =>
    let (errs, p, db') := processOne freshId user repAcc repCard db t idx
    let (restErrs, restPs, db'') := phase1 freshId user repAcc repCard db' (idx + 1) rest
    (errs ++ restErrs, p.toList ++ restPs, db'')

/-- The persistence loop inside the atomic block: stamp the origin, save
each validated draft (recomputing its fingerprint), append it to
storage, and record its tag assignment.  The dbFailure oracle models
database-layer write failures (the external engine may reject a write);
any failure aborts the whole block. -/
def saveAll (md5 : List Char → String) (freshId : String) (origin : String)
    (dbFailure : Nat → Option String) :
    DB → Nat → List (Draft × List Nat) → Except String DB
  | db, _, [] => .ok db
  | db, i, (t, tagIds) :: rest =>
    match dbFailure i with
    | some msg => .error msg
    | none =>
      match Transaction.save md5 freshId { t with origin := origin } with
      | .error e => .error e
      | .ok saved =>
        saveAll md5 freshId origin dbFailure
          { db with transactions := db.transactions ++ [⟨saved, tagIds⟩] } (i + 1) rest

/-- Result dictionary returned by process_transactions. -/
structure ProcResult where
  success_count : Nat
  error_count : Nat
  errors : List String
  deriving DecidableEq, Repr

/-- Model of TransactionProcessor.process_transactions: the validation
phase collects per-row errors (creating categories, subcategories and
tags on the way); a non-empty error list rejects the whole batch with
nothing persisted; otherwise every validated draft is saved inside one
atomic unit, whose failure rolls the transaction writes back entirely
and reports a single synthesized error. -/
def process_transactions (md5 : List Char → String) (freshId : String)
    (dbFailure : Nat → Option String) (user : Nat) (report : Option ReportInfo)
    (db : DB) (transactions : List Draft) : ProcResult × DB :=
  let repAcc := report.bind (fun r => r.account)
  let repCard := report.bind (fun r => r.creditCard)
  let (errors, processed, db1) := phase1 freshId user repAcc repCard db 1 transactions
  if errors ≠ [] then
    (⟨0, errors.length, errors⟩, db1)
  else
    let origin := match report with | some r => r.fileName | none => ""
    match saveAll md5 freshId origin dbFailure db1 0 processed with
    | .ok db2 => (⟨processed.length, 0, []⟩, db2)
    | .error e => (⟨0, processed.length, ["Failed to save transactions: " ++ e]⟩, db1)

end TransactionProcessor

/-- Status values of an import job. -/
inductive JobStatus where
  | sent
  | processing
  | imported
  | failed
  deriving DecidableEq, Repr

/-- The persistent import-job record (ImportedReport), restricted to the
fields the state machine touches; processedAtSet records that the
processed_at timestamp was stamped. -/
structure ImportedReport where
  status : JobStatus
  successCount : Nat := 0
  errorCount : Nat := 0
  errors : List String := []
  handlerType : String := ""
  failedReason : Option String := none
  processedAtSet : Bool := false
  deriving DecidableEq, Repr

/-- Result dictionary of ImportService.import_transactions. -/
structure ImportResult where
  success_count : Nat
  error_count : Nat
  errors : List String
  handler_type : String
  deriving DecidableEq, Repr

namespace ImportService

/-- Model of ImportService.process_import_report on a fetched job.  The
job first moves to PROCESSING (persisted immediately); the parsing and
persistence pipeline either returns a result dictionary or raises, and
the outcome of that call is this function's second argument.  Returns
the stored job and the re-raised exception message, if any. -/
def process_import_report (job : ImportedReport)
    (outcome : Except String ImportResult) : ImportedReport × Option String :=
  let job := { job with status := .processing }
  match outcome with
  | .error e =>
    ({ job with status := .failed, failedReason := some e, processedAtSet := true },
      some e)
  | .ok result =>
    let j := { job with
      successCount := result.success_count,
      errorCount := result.error_count,
      errors := result.errors,
      handlerType := result.handler_type,
      processedAtSet := true }
    if result.error_count = 0 ∧ result.success_count > 0 then
      ({ j with status := .imported }, none)
    else if result.error_count > 0 then
      let reason := "Import completed with " ++ toString result.error_count ++
        " errors. See errors list for details."
      ({ j with status := .failed, failedReason := some reason }, none)
    else
      ({ j with status := .failed, failedReason := some "No transactions were imported" },
        none)

end ImportService

/-- A well-formed expense draft used in concrete scenarios. -/
def exDraft : Draft :=
  { userId := 1, ttype := .expense, amountCents := 10050,
    description := some "Market", occurredAt := ⟨2024, 1, 15⟩ }

/-- A draft carrying a category hint whose installment fields violate
the model invariants, so entity resolution runs before validation
rejects it. -/
def c5Draft : Draft :=
  { exDraft with hintCategory := some "Food",
                 installmentsTotal := 0, installmentNumber := 5 }

/-- A draft with a null description. -/
def draftNullDesc : Draft :=
  { userId := 1, ttype := .expense, amountCents := 5000,
    description := none, occurredAt := ⟨2024, 1, 15⟩ }

/-- The same draft with an empty-string description - a different field
value that the fingerprint cannot distinguish from null. -/
def draftEmptyDesc : Draft :=
  { draftNullDesc with description := some "" }

/-- Banco Inter bank-statement row with amount -50,00. -/
def bankRow50 : List (String × String) :=
  [("data lançamento", "15/01/2024"), ("descrição", "Market"), ("valor", "-50,00")]

/-- Banco Inter credit-card row with amount -50,00. -/
def creditRow50 : List (String × String) :=
  [("data", "15/01/2024"), ("lançamento", "Market"), ("valor", "-50,00")]

/-- The draft the bank-statement handler builds from bankRow50. -/
def bankT50 : HandlerTxn :=
  { userId := 1, ttype := .expense, amount := .fin 5000 (-2), description := "Market",
    occurredAt := ⟨2024, 1, 15⟩ }

/-- The draft the credit-card handler builds from creditRow50. -/
def credT50 : HandlerTxn :=
  { userId := 1, ttype := .income, amount := .fin 5000 (-2), description := "Market",
    occurredAt := ⟨2024, 1, 15⟩ }

/-- Decidable equality on Except values with decidable components. -/
instance exceptDecEq {ε α : Type} [DecidableEq ε] [DecidableEq α] :
    DecidableEq (Except ε α)
  | .error e, .error f =>
    if h : e = f then isTrue (by rw [h])
    else isFalse (by intro hc; cases hc; exact h rfl)
  | .error _, .ok _ => isFalse (by intro hc; cases hc)
  | .ok _, .error _ => isFalse (by intro hc; cases hc)
  | .ok a, .ok b =>
    if h : a = b then isTrue (by rw [h])
    else isFalse (by intro hc; cases hc; exact h rfl)

/-- Generic CSV row with a negative amount and no type column. -/
def csvNegRow : List (String × String) :=
  [("date", "2024-01-02"), ("amount", "-10.50")]

/-- The parse of csvNegRow. -/
def csvNegP : DefaultCSV.Parsed :=
  { txn := { userId := 7, ttype := .income, amount := .fin 1050 (-2),
             description := "", occurredAt := ⟨2024, 1, 2⟩ } }

/-- Generic CSV row with amount exactly zero and no type column. -/
def csvZeroRow : List (String × String) :=
  [("date", "2024-01-02"), ("amount", "0")]

/-- The parse of csvZeroRow. -/
def csvZeroP : DefaultCSV.Parsed :=
  { txn := { userId := 7, ttype := .expense, amount := .fin 0 0,
             description := "", occurredAt := ⟨2024, 1, 2⟩ } }

/-- Generic JSON item with a negative float total. -/
def jsonNegItem : List (String × JVal) :=
  [("name", .jstr "x"), ("date", .jstr "2024-01-02"), ("total", .jnum (-505) 1)]

/-- The parse of jsonNegItem. -/
def jsonNegP : DefaultJSON.Parsed :=
  { txn := { userId := 7, ttype := .income, amount := .fin 505 (-1),
             description := "x", occurredAt := ⟨2024, 1, 2⟩ } }

/-- Statement of the account-xor-credit-card invariant over every
stored transaction of a database. -/
def FM.DB.mutualExclusive (db : FM.DB) : Prop :=
  ∀ s ∈ db.transactions, ¬(s.txn.account.isSome ∧ s.txn.creditCard.isSome)

/-- A draft referencing both an account and a credit card. -/
def bothDraft : Draft :=
  { exDraft with account := some 1, creditCard := some 2 }

/-- The stored row produced by saving exDraft with the identity hash. -/
def exDraftSaved : Draft :=
  { exDraft with hash := some "100.50|Market|2024-01-15" }

/-- The database state left behind by validating (and rejecting) the
batch [c5Draft] against an empty database: the category hint was
resolved by creating the category before validation failed. -/
def c5DB : FM.DB :=
  { categories := [⟨1, 1, "Food", .expense⟩], nextId := 2 }

/-! Helper lemmas. -/

/-- Two suffixes of the same list with the same length coincide. -/
lemma suffix_unique {a b l : List Char} (ha : a.isSuffixOf l) (hb : b.isSuffixOf l)
    (hlen : a.length = b.length) : a = b := by
  rw [List.isSuffixOf_iff_suffix] at ha hb
  obtain ⟨ta, hta⟩ := ha
  obtain ⟨tb, htb⟩ := hb
  have h := hta.trans htb.symm
  have hl : ta.length = tb.length := by
    have := congrArg List.length h
    simp [List.length_append] at this
    omega
  exact (List.append_inj h hl).2

/-- CLAIM C9: ImportService._detect_file_format is total with values in
the three supported kinds, matches the lower-cased extension, and
defaults every other or missing extension to csv. -/
theorem C9_detect_file_format_total (s : String) :
    (ImportService.detect_file_format s = "xlsx" ∨
      ImportService.detect_file_format s = "json" ∨
      ImportService.detect_file_format s = "csv") ∧
    (endsWithStr ".xlsx" (pyLower s) = true →
      ImportService.detect_file_format s = "xlsx") ∧
    (endsWithStr ".json" (pyLower s) = true →
      ImportService.detect_file_format s = "json") ∧
    (endsWithStr ".csv" (pyLower s) = true →
      ImportService.detect_file_format s = "csv") ∧
    (endsWithStr ".xlsx" (pyLower s) = false →
      endsWithStr ".json" (pyLower s) = false →
      endsWithStr ".csv" (pyLower s) = false →
      ImportService.detect_file_format s = "csv") := by
  have hlast : ∀ (a b : List Char), a ≠ [] → b ≠ [] →
      endsWithStr ⟨a⟩ (pyLower s) = true →
      endsWithStr ⟨b⟩ (pyLower s) = true → a.getLast? = b.getLast? := by
    intro a b hane hbne h1 h2
    rw [endsWithStr, List.isSuffixOf_iff_suffix] at h1 h2
    obtain ⟨ta, hta⟩ := h1
    obtain ⟨tb, htb⟩ := h2
    have h := congrArg List.getLast? (hta.trans htb.symm)
    rw [List.getLast?_append, List.getLast?_append] at h
    obtain ⟨x, hx⟩ := Option.isSome_iff_exists.mp (List.getLast?_isSome.mpr hane)
    obtain ⟨y, hy⟩ := Option.isSome_iff_exists.mp (List.getLast?_isSome.mpr hbne)
    rw [hx, hy] at h ⊢
    simpa using h
  have hxj : ¬(endsWithStr ".xlsx" (pyLower s) = true ∧
      endsWithStr ".json" (pyLower s) = true) := by
    rintro ⟨h1, h2⟩
    have := hlast ".xlsx".data ".json".data (by decide) (by decide) h1 h2
    simp at this
  have hxc : ¬(endsWithStr ".xlsx" (pyLower s) = true ∧
      endsWithStr ".csv" (pyLower s) = true) := by
    rintro ⟨h1, h2⟩
    have := hlast ".xlsx".data ".csv".data (by decide) (by decide) h1 h2
    simp at this
  have hjc : ¬(endsWithStr ".json" (pyLower s) = true ∧
      endsWithStr ".csv" (pyLower s) = true) := by
    rintro ⟨h1, h2⟩
    have := hlast ".json".data ".csv".data (by decide) (by decide) h1 h2
    simp at this
  unfold ImportService.detect_file_format
  cases h1 : endsWithStr ".xlsx" (pyLower s) with
  | true =>
    have h2 : endsWithStr ".json" (pyLower s) = false := by
      cases h : endsWithStr ".json" (pyLower s) with
      | false => rfl
      | true => exact absurd ⟨h1, h⟩ hxj
    have h3 : endsWithStr ".csv" (pyLower s) = false := by
      cases h : endsWithStr ".csv" (pyLower s) with
      | false => rfl
      | true => exact absurd ⟨h1, h⟩ hxc
    simp [h1, h2, h3]
  | false =>
    cases h2 : endsWithStr ".json" (pyLower s) with
    | true =>
      have h3 : endsWithStr ".csv" (pyLower s) = false := by
        cases h : endsWithStr ".csv" (pyLower s) with
        | false => rfl
        | true => exact absurd ⟨h2, h⟩ hjc
      simp [h1, h2, h3]
    | false =>
      cases h3 : endsWithStr ".csv" (pyLower s) with
      | true => simp [h1, h2, h3]
      | false => simp [h1, h2, h3]

/-- Witness for C9 at concrete filenames covering every branch. -/
theorem C9_witness :
    ImportService.detect_file_format "Report.XLSX" = "xlsx" ∧
    ImportService.detect_file_format "data.Json" = "json" ∧
    ImportService.detect_file_format "extrato.csv" = "csv" ∧
    ImportService.detect_file_format "legacy_upload" = "csv" := by
  refine ⟨?_, ?_, ?_, ?_⟩
  · exact (C9_detect_file_format_total "Report.XLSX").2.1 (by decide)
  · exact (C9_detect_file_format_total "data.Json").2.2.1 (by decide)
  · exact (C9_detect_file_format_total "extrato.csv").2.2.2.1 (by decide)
  · exact (C9_detect_file_format_total "legacy_upload").2.2.2.2 (by decide) (by decide)
      (by decide)

/-- CLAIM C4: the job processed by ImportService.process_import_report
ends IMPORTED exactly when the batch result has zero errors and at
least one persisted row; any other result marks it FAILED with a
populated failed_reason naming the error count or the absence of any
imported row; an exception from the pipeline marks it FAILED with the
exception message and is re-raised. -/
theorem C4_job_terminal_state (job : ImportedReport)
    (outcome : Except String ImportResult) :
    ((ImportService.process_import_report job outcome).1.status = .imported ↔
      ∃ r, outcome = .ok r ∧ r.error_count = 0 ∧ r.success_count > 0) ∧
    (∀ r, outcome = .ok r → r.error_count > 0 →
      (ImportService.process_import_report job outcome).1.status = .failed ∧
      (ImportService.process_import_report job outcome).1.failedReason =
        some ("Import completed with " ++ toString r.error_count ++
          " errors. See errors list for details.")) ∧
    (∀ r, outcome = .ok r → r.error_count = 0 → r.success_count = 0 →
      (ImportService.process_import_report job outcome).1.status = .failed ∧
      (ImportService.process_import_report job outcome).1.failedReason =
        some "No transactions were imported") ∧
    (∀ e, outcome = .error e →
      (ImportService.process_import_report job outcome).1.status = .failed ∧
      (ImportService.process_import_report job outcome).1.failedReason = some e ∧
      (ImportService.process_import_report job outcome).2 = some e) := by
  cases outcome with
  | error e =>
    refine ⟨?_, ?_, ?_, ?_⟩
    · simp [ImportService.process_import_report]
    · intro r hr; cases hr
    · intro r hr; cases hr
    · intro e' he'
      cases he'
      exact ⟨rfl, rfl, rfl⟩
  | ok r =>
    simp only [ImportService.process_import_report]
    split_ifs with h1 h2
    · refine ⟨?_, ?_, ?_, ?_⟩
      · constructor
        · intro _; exact ⟨r, rfl, h1.1, h1.2⟩
        · intro _; rfl
      · intro r' hr' herr; cases hr'; omega
      · intro r' hr' h0 hs; cases hr'; omega
      · intro e he; cases he
    · refine ⟨?_, ?_, ?_, ?_⟩
      · constructor
        · intro hst; simp at hst
        · rintro ⟨r', hr', he0, hs⟩; cases hr'; omega
      · intro r' hr' herr; cases hr'; exact ⟨rfl, rfl⟩
      · intro r' hr' h0 hs; cases hr'; omega
      · intro e he; cases he
    · refine ⟨?_, ?_, ?_, ?_⟩
      · constructor
        · intro hst; simp at hst
        · rintro ⟨r', hr', he0, hs⟩; cases hr'; omega
      · intro r' hr' herr; cases hr'; omega
      · intro r' hr' h0 hs; cases hr'; exact ⟨rfl, rfl⟩
      · intro e he; cases he

/-- Witness for C4 on a three-error batch result. -/
theorem C4_witness :
    (ImportService.process_import_report { status := .sent }
      (.ok ⟨0, 3, ["bad row"], "DefaultCSVHandler"⟩)).1.status = .failed ∧
    (ImportService.process_import_report { status := .sent }
      (.ok ⟨0, 3, ["bad row"], "DefaultCSVHandler"⟩)).1.failedReason =
      some ("Import completed with " ++ toString 3 ++
        " errors. See errors list for details.") :=
  (C4_job_terminal_state { status := .sent }
    (.ok ⟨0, 3, ["bad row"], "DefaultCSVHandler"⟩)).2.1
      ⟨0, 3, ["bad row"], "DefaultCSVHandler"⟩ rfl (by decide)

/-- Under never-raising detectors the uncaught CSV scan agrees with the
catching scan. -/
lemma csvSelect_eq_selectCatching {α : Type} (hs : List (α → Except PyExc Bool))
    (input : α) (h : ∀ g ∈ hs, ∀ e, g input ≠ .error e) :
    csvSelect hs input = .ok (selectCatching hs input) := by
  induction hs with
  | nil => rfl
  | cons g hs ih =>
    have hg : ∀ e, g input ≠ .error e := h g (by simp)
    have ih' := ih (fun g' hg' e => h g' (by simp [hg']) e)
    cases hget : g input with
    | error e => exact absurd hget (hg e)
    | ok b =>
      cases b with
      | true => simp [csvSelect, selectCatching, hget]
      | false => simp [csvSelect, selectCatching, hget, ih', Except.map]

/-- COUNTEREXAMPLE to C6: CSVImportFactory.create_handler does not wrap
the detection calls in a try-except, so an exception raised by a
candidate detector propagates to the caller instead of being treated as
cannot-handle. -/
theorem C6_counterexample :
    CSVImportFactory.create_handler (.ok (["col"] : List String))
      [fun _ => .error ⟨.valueError, "broken detector"⟩] =
      .error ⟨.valueError, "broken detector"⟩ := rfl

/-- CLAIM C6 (amended): the JSON and XLSX factories treat an erroring
detector as cannot-handle and continue down the registered list,
falling back to the generic JSON handler respectively failing with the
no-handler ValueError when nothing matches; the CSV factory propagates
a detection exception, but under never-raising detectors (as its
registered handlers are, catching their own errors) it selects the
first match and falls back to the generic CSV handler. -/
theorem C6_amended {α : Type} (f : α → Except PyExc Bool)
    (hs : List (α → Except PyExc Bool)) (input : α) (e : PyExc) (path : String)
    (hf : f input = .error e) :
    (selectCatching (f :: hs) input = (selectCatching hs input).map (fun i => i + 1)) ∧
    (selectCatching hs input = none →
      JSONImportFactory.create_handler (f :: hs) input = .generic) ∧
    (selectCatching hs input = none →
      XLSXImportFactory.create_handler (f :: hs) path input =
        .error ⟨.valueError, "No handler could process XLSX file: " ++ path⟩) ∧
    (CSVImportFactory.create_handler (.ok input) (f :: hs) = .error e) ∧
    ((∀ g ∈ hs, ∀ e', g input ≠ .error e') →
      CSVImportFactory.create_handler (.ok input) hs =
        .ok (match selectCatching hs input with
             | some i => .registered i
             | none => .generic)) := by
  refine ⟨?_, ?_, ?_, ?_, ?_⟩
  · simp [selectCatching, hf]
  · intro hnone
    simp [JSONImportFactory.create_handler, selectCatching, hf, hnone]
  · intro hnone
    simp [XLSXImportFactory.create_handler, selectCatching, hf, hnone]
  · simp [CSVImportFactory.create_handler, csvSelect, bind, Except.bind, hf]
  · intro htotal
    rw [CSVImportFactory.create_handler]
    simp only [bind, Except.bind]
    rw [csvSelect_eq_selectCatching hs input htotal]
    cases selectCatching hs input <;> rfl

/-- Witness for C6: a broken detector ahead of a non-matching one. -/
theorem C6_witness :
    JSONImportFactory.create_handler
      [fun _ : List String => .error ⟨.valueError, "broken"⟩,
       fun _ => .ok false] ["col"] = .generic ∧
    XLSXImportFactory.create_handler
      [fun _ : List String => .error ⟨.valueError, "broken"⟩,
       fun _ => .ok false] "f.xlsx" ["col"] =
      .error ⟨.valueError, "No handler could process XLSX file: f.xlsx"⟩ ∧
    CSVImportFactory.create_handler (.ok (["col"] : List String))
      [fun _ => .error ⟨.valueError, "broken"⟩] =
      .error ⟨.valueError, "broken"⟩ ∧
    CSVImportFactory.create_handler (.ok (["col"] : List String))
      [fun _ => .ok false] = .ok .generic := by
  have h1 := C6_amended (fun _ : List String => .error ⟨.valueError, "broken"⟩)
    [fun _ => .ok false] ["col"] ⟨.valueError, "broken"⟩ "f.xlsx" rfl
  have h2 := C6_amended (fun _ : List String => .error ⟨.valueError, "broken"⟩)
    [] ["col"] ⟨.valueError, "broken"⟩ "f.xlsx" rfl
  refine ⟨h1.2.1 rfl, h1.2.2.1 rfl, h2.2.2.2.1, ?_⟩
  have h3 := h1.2.2.2.2 (by intro g hg e'; simp at hg; simp [hg])
  simpa using h3

/-- CLAIM C2: the Banco Inter bank-statement row parser maps a negative
amount to EXPENSE with the absolute value and a non-negative amount to
INCOME, while the Banco Inter credit-card row parser inverts the
convention: negative to INCOME with the absolute value, non-negative to
EXPENSE. -/
theorem C2_sign_convention (row : List (String × String)) (userId rowNum : Nat)
    (t u : HandlerTxn) (q r : Int) (qe re : Int) :
    (BIBank.parse_transaction_row row userId rowNum = .ok t →
      BIBank.parse_amount (pyStrip (dictGetD row "valor")) = .ok (.fin q qe) →
      ((q < 0 → t.ttype = .expense ∧ t.amount = .fin |q| qe) ∧
       (0 ≤ q → t.ttype = .income ∧ t.amount = .fin q qe))) ∧
    (BICredit.parse_transaction_row row userId rowNum = .ok u →
      BICredit.parse_amount (pyStrip (dictGetD row "valor")) = .ok (.fin r re) →
      ((r < 0 → u.ttype = .income ∧ u.amount = .fin |r| re) ∧
       (0 ≤ r → u.ttype = .expense ∧ u.amount = .fin r re))) := by
  constructor
  · intro h1 h2
    unfold BIBank.parse_transaction_row at h1
    dsimp only at h1
    split at h1
    · exact absurd h1 (by simp)
    · split at h1
      · exact absurd h1 (by simp)
      · split at h1
        · exact absurd h1 (by simp)
        · rw [h2] at h1
          simp only [bind, Except.bind, PyDec.ltZero] at h1
          constructor
          · intro hq
            have hd : decide (q < 0) = true := by simpa using hq
            rw [hd] at h1
            simp only [if_true] at h1
            have := Except.ok.inj h1
            subst this
            exact ⟨rfl, by simp [PyDec.pyAbs]⟩
          · intro hq
            have hd : decide (q < 0) = false := by simpa using not_lt.mpr hq
            rw [hd] at h1
            simp only [Bool.false_eq_true, if_false] at h1
            have := Except.ok.inj h1
            subst this
            exact ⟨rfl, rfl⟩
  · intro h1 h2
    unfold BICredit.parse_transaction_row at h1
    dsimp only at h1
    split at h1
    · exact absurd h1 (by simp)
    · split at h1
      · exact absurd h1 (by simp)
      · split at h1
        · exact absurd h1 (by simp)
        · rw [h2] at h1
          simp only [bind, Except.bind, PyDec.ltZero] at h1
          constructor
          · intro hq
            have hd : decide (r < 0) = true := by simpa using hq
            rw [hd] at h1
            simp only [if_true] at h1
            have := Except.ok.inj h1
            subst this
            exact ⟨rfl, by simp [PyDec.pyAbs]⟩
          · intro hq
            have hd : decide (r < 0) = false := by simpa using not_lt.mpr hq
            rw [hd] at h1
            simp only [Bool.false_eq_true, if_false] at h1
            have := Except.ok.inj h1
            subst this
            exact ⟨rfl, rfl⟩

/-- Witness for C2: amount -50,00 gives EXPENSE 50.00 from the
bank-statement handler and INCOME 50.00 from the credit-card handler. -/
theorem C2_witness :
    bankT50.ttype = TType.expense ∧ bankT50.amount = PyDec.fin 5000 (-2) ∧
    credT50.ttype = TType.income ∧ credT50.amount = PyDec.fin 5000 (-2) := by
  have hb := ((C2_sign_convention bankRow50 1 7 bankT50 credT50 (-5000) (-5000)
    (-2) (-2)).1 (by decide) (by decide)).1 (by norm_num)
  have hc := ((C2_sign_convention creditRow50 1 2 bankT50 credT50 (-5000) (-5000)
    (-2) (-2)).2 (by decide) (by decide)).1 (by norm_num)
  refine ⟨hb.1, ?_, hc.1, ?_⟩
  · rw [hb.2]; norm_num
  · rw [hc.2]; norm_num

/-- CLAIM C10: when no explicit transaction-type column or field is
present, the generic CSV and JSON handlers infer the type from the
amount sign with the credit-card-bill convention: a negative amount
yields INCOME carrying the absolute value and a zero or positive amount
yields EXPENSE. -/
theorem C10_generic_sign_inference (row : List (String × String))
    (item : List (String × JVal)) (userId rowNum itemNum : Nat)
    (p : DefaultCSV.Parsed) (pj : DefaultJSON.Parsed) (av : String)
    (m e mj ej : Int) :
    (DefaultCSV.parse_transaction_row row userId rowNum = .ok p →
      DefaultCSV.find_column_value (DefaultCSV.normalizeRow row)
        DefaultCSV.TRANSACTION_TYPE_COLUMNS = none →
      DefaultCSV.find_column_value (DefaultCSV.normalizeRow row)
        DefaultCSV.AMOUNT_COLUMNS = some av →
      pyDecimal av = .ok (.fin m e) →
      ((m < 0 → p.txn.ttype = .income ∧ p.txn.amount = .fin |m| e) ∧
       (0 ≤ m → p.txn.ttype = .expense ∧ p.txn.amount = .fin m e))) ∧
    (DefaultJSON.parse_transaction_item item userId itemNum = .ok pj →
      pyDecimal ((jsonGet item "total").getD .jnull).pyStr = .ok (.fin mj ej) →
      ((mj < 0 → pj.txn.ttype = .income ∧ pj.txn.amount = .fin |mj| ej) ∧
       (0 ≤ mj → pj.txn.ttype = .expense ∧ pj.txn.amount = .fin mj ej))) := by
  constructor
  · intro h1 htype hav hq
    unfold DefaultCSV.parse_transaction_row at h1
    dsimp only at h1
    split at h1
    · exact absurd h1 (by simp)
    · split at h1
      · exact absurd h1 (by simp)
      · rw [hav] at h1
        dsimp only at h1
        rw [hq] at h1
        rw [htype] at h1
        simp only [bind, Except.bind, PyDec.ltZero] at h1
        constructor
        · intro hm
          have hd : decide (m < 0) = true := by simpa using hm
          rw [hd] at h1
          simp only [if_true] at h1
          have := Except.ok.inj h1
          subst this
          exact ⟨rfl, by simp [PyDec.pyAbs]⟩
        · intro hm
          have hd : decide (m < 0) = false := by simpa using not_lt.mpr hm
          rw [hd] at h1
          simp only [Bool.false_eq_true, if_false] at h1
          have := Except.ok.inj h1
          subst this
          exact ⟨rfl, rfl⟩
  · intro h1 hq
    unfold DefaultJSON.parse_transaction_item at h1
    dsimp only at h1
    split at h1
    · exact absurd h1 (by simp)
    · split at h1
      · exact absurd h1 (by simp)
      · rw [hq] at h1
        simp only [bind, Except.bind, PyDec.ltZero] at h1
        split at h1
        · exact absurd h1 (by simp)
        · constructor
          · intro hm
            have hd : decide (mj < 0) = true := by simpa using hm
            rw [hd] at h1
            simp only [if_true] at h1
            have := Except.ok.inj h1
            subst this
            exact ⟨rfl, by simp [PyDec.pyAbs]⟩
          · intro hm
            have hd : decide (mj < 0) = false := by simpa using not_lt.mpr hm
            rw [hd] at h1
            simp only [Bool.false_eq_true, if_false] at h1
            have := Except.ok.inj h1
            subst this
            exact ⟨rfl, rfl⟩

/-- Witness for C10: a negative CSV amount, a zero CSV amount, and a
negative JSON total, all without an explicit type field. -/
theorem C10_witness :
    (csvNegP.txn.ttype = TType.income ∧ csvNegP.txn.amount = PyDec.fin 1050 (-2)) ∧
    (csvZeroP.txn.ttype = TType.expense ∧ csvZeroP.txn.amount = PyDec.fin 0 0) ∧
    (jsonNegP.txn.ttype = TType.income ∧ jsonNegP.txn.amount = PyDec.fin 505 (-1)) := by
  have h1 := ((C10_generic_sign_inference csvNegRow jsonNegItem 7 2 1 csvNegP
    jsonNegP "-10.50" (-1050) (-2) (-505) (-1)).1 (by decide) (by decide)
    (by decide) (by decide)).1 (by norm_num)
  have h2 := ((C10_generic_sign_inference csvZeroRow jsonNegItem 7 2 1 csvZeroP
    jsonNegP "0" 0 0 (-505) (-1)).1 (by decide) (by decide) (by decide)
    (by decide)).2 (by norm_num)
  have h3 := ((C10_generic_sign_inference csvNegRow jsonNegItem 7 2 1 csvNegP
    jsonNegP "-10.50" (-1050) (-2) (-505) (-1)).2 (by decide) (by decide)).1
    (by norm_num)
  refine ⟨⟨h1.1, ?_⟩, ⟨h2.1, h2.2⟩, ⟨h3.1, ?_⟩⟩
  · rw [h1.2]; norm_num
  · rw [h3.2]; norm_num

/-- CLAIM C3 (code bug): a row whose amount is non-numeric after
normalization is NOT skipped with a warning: Decimal raises
decimal.InvalidOperation, which neither the handler's except clause for
ValueError and TypeError nor the per-row except ValueError catches, so
the whole-file handler discards every draft and raises a file-level
ValueError.  By contrast a row failing with a genuine ValueError (here
an invalid date) is skipped and the remaining well-formed row is still
returned. -/
theorem C3_invalid_amount_fatal :
    DefaultCSV.parse_transactions_from_file "transactions.csv" 1
      [[("date", "2024-01-01"), ("amount", "abc")],
       [("date", "2024-01-02"), ("amount", "10.50")]] =
      .error ⟨.valueError,
        "Error reading CSV file transactions.csv: ConversionSyntax"⟩ ∧
    DefaultCSV.parse_transactions_from_file "transactions.csv" 1
      [[("date", "baddate"), ("amount", "10.50")],
       [("date", "2024-01-02"), ("amount", "10.50")]] =
      .ok [{ txn := { userId := 1, ttype := .expense, amount := .fin 1050 (-2),
                      description := "", occurredAt := ⟨2024, 1, 2⟩ } }] :=
  ⟨by decide, by decide⟩

/-- A successful clean leaves the account and credit-card links
untouched and certifies they are not both set. -/
lemma clean_ok_fields (freshId : String) (t t' : Draft)
    (h : clean freshId t = .ok t') :
    t'.account = t.account ∧ t'.creditCard = t.creditCard ∧
      ¬(t.account.isSome ∧ t.creditCard.isSome) := by
  unfold clean at h
  split at h
  · exact absurd h (by simp)
  · rename_i hboth
    split at h
    · split at h
      · exact absurd h (by simp)
      · split at h
        · exact absurd h (by simp)
        · split at h
          · exact absurd h (by simp)
          · split at h
            · have := Except.ok.inj h; subst this; exact ⟨rfl, rfl, hboth⟩
            · have := Except.ok.inj h; subst this; exact ⟨rfl, rfl, hboth⟩
    · have := Except.ok.inj h; subst this; exact ⟨rfl, rfl, hboth⟩

/-- A successful field validation returns the draft unchanged. -/
lemma cleanFields_ok (t t' : Draft) (h : cleanFields t = .ok t') : t' = t := by
  unfold cleanFields at h
  split at h
  · exact absurd h (by simp)
  · split at h
    · exact absurd h (by simp)
    · split at h
      · exact absurd h (by simp)
      · split at h
        · exact absurd h (by simp)
        · exact (Except.ok.inj h).symm

/-- A row written by Transaction.save never has both an account and a
credit card set. -/
lemma save_ok_not_both (md5 : List Char → String) (freshId : String)
    (t t' : Draft) (h : Transaction.save md5 freshId t = .ok t') :
    ¬(t'.account.isSome ∧ t'.creditCard.isSome) := by
  unfold Transaction.save full_clean at h
  simp only [bind, Except.bind] at h
  cases hcf : cleanFields t with
  | error e => rw [hcf] at h; exact absurd h (by simp)
  | ok t0 =>
    rw [hcf] at h
    dsimp only at h
    cases hcl : clean freshId t0 with
    | error e => rw [hcl] at h; exact absurd h (by simp)
    | ok t1 =>
      rw [hcl] at h
      obtain ⟨ha, hc, hboth⟩ := clean_ok_fields freshId t0 t1 hcl
      have := Except.ok.inj h
      subst this
      simpa [ha, hc] using hboth

/-- The persistence loop preserves the mutual-exclusivity invariant of
the stored transactions. -/
lemma saveAll_mutualExclusive (md5 : List Char → String)
    (freshId origin : String) (dbFailure : Nat → Option String) :
    ∀ (l : List (Draft × List Nat)) (db db' : FM.DB) (i : Nat),
      db.mutualExclusive →
      TransactionProcessor.saveAll md5 freshId origin dbFailure db i l = .ok db' →
      db'.mutualExclusive := by
  intro l
  induction l with
  | nil =>
    intro db db' i hinv h
    unfold TransactionProcessor.saveAll at h
    have := Except.ok.inj h
    subst this
    exact hinv
  | cons p rest ih =>
    intro db db' i hinv h
    unfold TransactionProcessor.saveAll at h
    split at h
    · exact absurd h (by simp)
    · split at h
      · exact absurd h (by simp)
      · rename_i saved hsave
        refine ih _ db' (i + 1) ?_ h
        intro s hs
        rcases List.mem_append.mp hs with hs | hs
        · exact hinv s hs
        · have : s = ⟨saved, p.2⟩ := by simpa using hs
          subst this
          exact save_ok_not_both md5 freshId _ saved hsave

/-- CLAIM C8: a draft referencing both an account and a credit card is
rejected by Transaction.clean with the mutual-exclusivity error; since
Transaction.save always runs full validation before writing, a saved
row never carries both links, and the persistence loop preserves the
invariant for the whole stored dataset. -/
theorem C8_mutual_exclusivity (md5 : List Char → String)
    (freshId origin : String) (dbFailure : Nat → Option String)
    (t t' : Draft) (db db' : FM.DB) (i : Nat) (l : List (Draft × List Nat)) :
    (t.account.isSome → t.creditCard.isSome →
      clean freshId t = .error ("A transaction cannot be associated with both an account and a " ++
        "credit card. Please choose either an account or a credit card.")) ∧
    (Transaction.save md5 freshId t = .ok t' →
      ¬(t'.account.isSome ∧ t'.creditCard.isSome)) ∧
    (db.mutualExclusive →
      TransactionProcessor.saveAll md5 freshId origin dbFailure db i l = .ok db' →
      db'.mutualExclusive) := by
  refine ⟨?_, save_ok_not_both md5 freshId t t',
    fun hinv h => saveAll_mutualExclusive md5 freshId origin dbFailure l db db' i hinv h⟩
  intro h1 h2
  unfold clean
  rw [if_pos ⟨h1, h2⟩]

/-- Witness for C8: a both-linked draft is rejected; a saved draft and
the database it lands in satisfy the invariant. -/
theorem C8_witness :
    clean "u" bothDraft =
      .error ("A transaction cannot be associated with both an account and a " ++
        "credit card. Please choose either an account or a credit card.") ∧
    ¬(exDraftSaved.account.isSome ∧ exDraftSaved.creditCard.isSome) ∧
    FM.DB.mutualExclusive { transactions := [⟨exDraftSaved, []⟩] } := by
  have h1 := C8_mutual_exclusivity List.asString "u" "" (fun _ => none)
    bothDraft exDraftSaved ({} : FM.DB) {} 0 []
  have h2 := C8_mutual_exclusivity List.asString "u" "" (fun _ => none)
    exDraft exDraftSaved ({} : FM.DB)
    { transactions := [⟨exDraftSaved, []⟩] } 0 [(exDraft, [])]
  refine ⟨h1.1 (by decide) (by decide), h2.2.1 (by decide),
    h2.2.2 (fun s hs => absurd hs (by simp)) (by decide)⟩

/-- Category match-or-create writes no transaction. -/
lemma match_category_transactions (db : FM.DB) (user : Nat) (name : String)
    (ct : FM.CatType) :
    (TransactionProcessor.match_category_by_name db user name ct).2.transactions =
      db.transactions := by
  unfold TransactionProcessor.match_category_by_name
  split <;> rfl

/-- Category match-or-create writes no account. -/
lemma match_category_accounts (db : FM.DB) (user : Nat) (name : String)
    (ct : FM.CatType) :
    (TransactionProcessor.match_category_by_name db user name ct).2.accounts =
      db.accounts := by
  unfold TransactionProcessor.match_category_by_name
  split <;> rfl

/-- Category match-or-create writes no credit card. -/
lemma match_category_creditCards (db : FM.DB) (user : Nat) (name : String)
    (ct : FM.CatType) :
    (TransactionProcessor.match_category_by_name db user name ct).2.creditCards =
      db.creditCards := by
  unfold TransactionProcessor.match_category_by_name
  split <;> rfl

/-- Subcategory match-or-create writes no transaction. -/
lemma match_subcategory_transactions (db : FM.DB) (user : Nat) (name : String)
    (cid : Nat) :
    (TransactionProcessor.match_subcategory_by_name db user name cid).2.transactions =
      db.transactions := by
  unfold TransactionProcessor.match_subcategory_by_name
  split <;> rfl

/-- Subcategory match-or-create writes no account. -/
lemma match_subcategory_accounts (db : FM.DB) (user : Nat) (name : String)
    (cid : Nat) :
    (TransactionProcessor.match_subcategory_by_name db user name cid).2.accounts =
      db.accounts := by
  unfold TransactionProcessor.match_subcategory_by_name
  split <;> rfl

/-- Subcategory match-or-create writes no credit card. -/
lemma match_subcategory_creditCards (db : FM.DB) (user : Nat) (name : String)
    (cid : Nat) :
    (TransactionProcessor.match_subcategory_by_name db user name cid).2.creditCards =
      db.creditCards := by
  unfold TransactionProcessor.match_subcategory_by_name
  split <;> rfl

/-- Tag match-or-create writes no transaction. -/
lemma matchOrCreateTag_transactions (db : FM.DB) (user : Nat) (name : String) :
    (TransactionProcessor.matchOrCreateTag db user name).2.transactions =
      db.transactions := by
  unfold TransactionProcessor.matchOrCreateTag
  split <;> rfl

/-- Tag match-or-create writes no account. -/
lemma matchOrCreateTag_accounts (db : FM.DB) (user : Nat) (name : String) :
    (TransactionProcessor.matchOrCreateTag db user name).2.accounts =
      db.accounts := by
  unfold TransactionProcessor.matchOrCreateTag
  split <;> rfl

/-- Tag match-or-create writes no credit card. -/
lemma matchOrCreateTag_creditCards (db : FM.DB) (user : Nat) (name : String) :
    (TransactionProcessor.matchOrCreateTag db user name).2.creditCards =
      db.creditCards := by
  unfold TransactionProcessor.matchOrCreateTag
  split <;> rfl

/-- The tag loop writes no transaction, account, or credit card. -/
lemma match_tags_go_frame (user : Nat) : ∀ (names : List String) (db : FM.DB),
    (TransactionProcessor.match_tags_go user db names).2.transactions =
      db.transactions ∧
    (TransactionProcessor.match_tags_go user db names).2.accounts = db.accounts ∧
    (TransactionProcessor.match_tags_go user db names).2.creditCards =
      db.creditCards := by
  intro names
  induction names with
  | nil => intro db; exact ⟨rfl, rfl, rfl⟩
  | cons n rest ih =>
    intro db
    rcases h1 : TransactionProcessor.matchOrCreateTag db user n with ⟨tg, db1⟩
    have ht := matchOrCreateTag_transactions db user n
    have ha := matchOrCreateTag_accounts db user n
    have hc := matchOrCreateTag_creditCards db user n
    rw [h1] at ht ha hc
    have ihdb := ih db1
    unfold TransactionProcessor.match_tags_go
    rw [h1]
    dsimp only
    rcases h2 : TransactionProcessor.match_tags_go user db1 rest with ⟨ts, db2⟩
    rw [h2] at ihdb
    exact ⟨ihdb.1.trans ht, ihdb.2.1.trans ha, ihdb.2.2.trans hc⟩

/-- _match_tags writes no transaction, account, or credit card. -/
lemma match_tags_frame (db : FM.DB) (user : Nat) (raw : String ⊕ List String) :
    (TransactionProcessor.match_tags db user raw).2.transactions = db.transactions ∧
    (TransactionProcessor.match_tags db user raw).2.accounts = db.accounts ∧
    (TransactionProcessor.match_tags db user raw).2.creditCards = db.creditCards :=
  match_tags_go_frame user (TransactionProcessor.tagNameList raw) db

/-- Category resolution writes no transaction, account, or credit card. -/
lemma resolveCategory_frame (db : FM.DB) (user : Nat) (t : Draft) :
    (TransactionProcessor.resolveCategory db user t).2.transactions =
      db.transactions ∧
    (TransactionProcessor.resolveCategory db user t).2.accounts = db.accounts ∧
    (TransactionProcessor.resolveCategory db user t).2.creditCards =
      db.creditCards := by
  unfold TransactionProcessor.resolveCategory
  split
  · dsimp only
    exact ⟨match_category_transactions .., match_category_accounts ..,
      match_category_creditCards ..⟩
  · exact ⟨rfl, rfl, rfl⟩

/-- Subcategory resolution writes no transaction, account, or credit
card. -/
lemma resolveSubcategory_frame (db : FM.DB) (user : Nat) (t : Draft) (idx : Nat) :
    (TransactionProcessor.resolveSubcategory db user t idx).2.2.transactions =
      db.transactions ∧
    (TransactionProcessor.resolveSubcategory db user t idx).2.2.accounts =
      db.accounts ∧
    (TransactionProcessor.resolveSubcategory db user t idx).2.2.creditCards =
      db.creditCards := by
  unfold TransactionProcessor.resolveSubcategory
  split
  · split
    · exact ⟨rfl, rfl, rfl⟩
    · dsimp only
      exact ⟨match_subcategory_transactions .., match_subcategory_accounts ..,
        match_subcategory_creditCards ..⟩
  · exact ⟨rfl, rfl, rfl⟩

/-- Tag assignment writes no transaction, account, or credit card. -/
lemma applyTags_frame (db : FM.DB) (user : Nat) (t : Draft) :
    (TransactionProcessor.applyTags db user t).2.transactions = db.transactions ∧
    (TransactionProcessor.applyTags db user t).2.accounts = db.accounts ∧
    (TransactionProcessor.applyTags db user t).2.creditCards = db.creditCards := by
  unfold TransactionProcessor.applyTags
  split
  · dsimp only
    exact match_tags_frame ..
  · exact ⟨rfl, rfl, rfl⟩

/-- Validation of one draft writes no transaction, account, or credit
card. -/
lemma processOne_frame (freshId : String) (user : Nat)
    (repAcc repCard : Option Nat) (db : FM.DB) (t : Draft) (idx : Nat) :
    (TransactionProcessor.processOne freshId user repAcc repCard db t idx).2.2.transactions =
      db.transactions ∧
    (TransactionProcessor.processOne freshId user repAcc repCard db t idx).2.2.accounts =
      db.accounts ∧
    (TransactionProcessor.processOne freshId user repAcc repCard db t idx).2.2.creditCards =
      db.creditCards := by
  unfold TransactionProcessor.processOne
  dsimp only
  rcases h1 : TransactionProcessor.resolveCategory db user
    (TransactionProcessor.resolveCreditCard db user repCard
      (TransactionProcessor.resolveAccount db user repAcc t)) with ⟨t1, db1⟩
  have hf1 := resolveCategory_frame db user
    (TransactionProcessor.resolveCreditCard db user repCard
      (TransactionProcessor.resolveAccount db user repAcc t))
  rw [h1] at hf1
  rcases h2 : TransactionProcessor.resolveSubcategory db1 user t1 idx with ⟨errs2, t2, db2⟩
  have hf2 := resolveSubcategory_frame db1 user t1 idx
  rw [h2] at hf2
  dsimp only
  split
  · exact ⟨hf2.1.trans hf1.1, hf2.2.1.trans hf1.2.1, hf2.2.2.trans hf1.2.2⟩
  · rename_i t3 hclean
    rcases h3 : TransactionProcessor.applyTags db2 user t3 with ⟨ids, db3⟩
    have hf3 := applyTags_frame db2 user t3
    rw [h3] at hf3
    dsimp only
    exact ⟨(hf3.1.trans hf2.1).trans hf1.1,
      (hf3.2.1.trans hf2.2.1).trans hf1.2.1,
      (hf3.2.2.trans hf2.2.2).trans hf1.2.2⟩

/-- The whole validation phase writes no transaction, account, or
credit card. -/
lemma phase1_frame (freshId : String) (user : Nat) (repAcc repCard : Option Nat) :
    ∀ (ts : List Draft) (db : FM.DB) (idx : Nat),
      (TransactionProcessor.phase1 freshId user repAcc repCard db idx ts).2.2.transactions =
        db.transactions ∧
      (TransactionProcessor.phase1 freshId user repAcc repCard db idx ts).2.2.accounts =
        db.accounts ∧
      (TransactionProcessor.phase1 freshId user repAcc repCard db idx ts).2.2.creditCards =
        db.creditCards := by
  intro ts
  induction ts with
  | nil => intro db idx; exact ⟨rfl, rfl, rfl⟩
  | cons t rest ih =>
    intro db idx
    unfold TransactionProcessor.phase1
    rcases h1 : TransactionProcessor.processOne freshId user repAcc repCard db t idx
      with ⟨errs, p, db1⟩
    have hf1 := processOne_frame freshId user repAcc repCard db t idx
    rw [h1] at hf1
    dsimp only
    rcases h2 : TransactionProcessor.phase1 freshId user repAcc repCard db1 (idx + 1) rest
      with ⟨errs2, ps2, db2⟩
    have hf2 := ih db1 (idx + 1)
    rw [h2] at hf2
    dsimp only
    exact ⟨hf2.1.trans hf1.1, hf2.2.1.trans hf1.2.1, hf2.2.2.trans hf1.2.2⟩

/-- A draft contributing no error string was appended to the processed
list. -/
lemma processOne_some_of_no_errors (freshId : String) (user : Nat)
    (repAcc repCard : Option Nat) (db : FM.DB) (t : Draft) (idx : Nat)
    (h : (TransactionProcessor.processOne freshId user repAcc repCard db t idx).1 = []) :
    (TransactionProcessor.processOne freshId user repAcc repCard db t idx).2.1.isSome := by
  unfold TransactionProcessor.processOne at h ⊢
  dsimp only at h ⊢
  generalize hg : TransactionProcessor.resolveCategory db user
    (TransactionProcessor.resolveCreditCard db user repCard
      (TransactionProcessor.resolveAccount db user repAcc t)) = pr at h ⊢
  obtain ⟨t1, db1⟩ := pr
  dsimp only at h ⊢
  generalize hs : TransactionProcessor.resolveSubcategory db1 user t1 idx = pr2 at h ⊢
  obtain ⟨errs2, t2, db2⟩ := pr2
  dsimp only at h ⊢
  cases hclean : full_clean freshId t2 with
  | error e => rw [hclean] at h; dsimp only at h; simp at h
  | ok t3 => rfl

/-- When the validation phase reports no errors, every draft of the
batch was validated and queued for persistence. -/
lemma phase1_length (freshId : String) (user : Nat) (repAcc repCard : Option Nat) :
    ∀ (ts : List Draft) (db : FM.DB) (idx : Nat),
      (TransactionProcessor.phase1 freshId user repAcc repCard db idx ts).1 = [] →
      (TransactionProcessor.phase1 freshId user repAcc repCard db idx ts).2.1.length =
        ts.length := by
  intro ts
  induction ts with
  | nil => intro db idx _; rfl
  | cons t rest ih =>
    intro db idx h
    unfold TransactionProcessor.phase1 at h ⊢
    have hsome := processOne_some_of_no_errors freshId user repAcc repCard db t idx
    generalize h1 : TransactionProcessor.processOne freshId user repAcc repCard db t idx = pr
      at h hsome ⊢
    obtain ⟨errs, p, db1⟩ := pr
    dsimp only at h hsome ⊢
    generalize h2 : TransactionProcessor.phase1 freshId user repAcc repCard db1 (idx + 1) rest = pr2
      at h ⊢
    obtain ⟨errs2, ps2, db2⟩ := pr2
    dsimp only at h ⊢
    obtain ⟨he1, he2⟩ := List.append_eq_nil.mp h
    subst he1
    have hih := ih db1 (idx + 1)
    rw [h2] at hih
    dsimp only at hih
    obtain ⟨v, hv⟩ := Option.isSome_iff_exists.mp (hsome rfl)
    subst hv
    simp [hih he2]

/-- The origin stamped on saved rows is the report file name when a
report is present and empty otherwise. -/
lemma report_origin_eq (report : Option FM.ReportInfo) :
    (match report with | some r => r.fileName | none => "") =
      (report.map (fun r => r.fileName)).getD "" := by
  cases report <;> rfl

/-- CLAIM C1: all-or-nothing persistence.  If the validation phase
collects any error, process_transactions returns success_count 0 with
the collected errors and the stored transactions are untouched; if the
validation phase is clean but any save inside the atomic unit fails,
the unit rolls back, the result reports success_count 0 with
error_count equal to the batch size, and the stored transactions are
again untouched. -/
theorem C1_all_or_nothing (md5 : List Char → String) (freshId : String)
    (dbFailure : Nat → Option String) (user : Nat) (report : Option FM.ReportInfo)
    (db : FM.DB) (ts : List Draft) (errs : List String)
    (processed : List (Draft × List Nat)) (db1 : FM.DB) (e : String)
    (h : TransactionProcessor.phase1 freshId user
      (report.bind (fun r => r.account)) (report.bind (fun r => r.creditCard))
      db 1 ts = (errs, processed, db1)) :
    (errs ≠ [] →
      TransactionProcessor.process_transactions md5 freshId dbFailure user report db ts =
        (⟨0, errs.length, errs⟩, db1) ∧
      db1.transactions = db.transactions) ∧
    (errs = [] →
      TransactionProcessor.saveAll md5 freshId
        ((report.map (fun r => r.fileName)).getD "") dbFailure db1 0 processed =
        .error e →
      TransactionProcessor.process_transactions md5 freshId dbFailure user report db ts =
        (⟨0, ts.length, ["Failed to save transactions: " ++ e]⟩, db1) ∧
      db1.transactions = db.transactions) := by
  have hframe := phase1_frame freshId user (report.bind (fun r => r.account))
    (report.bind (fun r => r.creditCard)) ts db 1
  rw [h] at hframe
  have hlen := phase1_length freshId user (report.bind (fun r => r.account))
    (report.bind (fun r => r.creditCard)) ts db 1
  rw [h] at hlen
  dsimp only at hframe hlen
  constructor
  · intro hne
    refine ⟨?_, hframe.1⟩
    unfold TransactionProcessor.process_transactions
    dsimp only
    rw [h]
    dsimp only
    rw [if_pos hne]
  · intro he hsave
    refine ⟨?_, hframe.1⟩
    unfold TransactionProcessor.process_transactions
    dsimp only
    rw [h]
    dsimp only
    rw [if_neg (by simp [he])]
    rw [report_origin_eq report]
    rw [hsave]
    dsimp only
    rw [hlen he]

/-- Witness for C1: a clean one-draft batch whose save is rejected by
the database layer rolls back and reports error_count equal to the
batch size. -/
theorem C1_witness :
    TransactionProcessor.process_transactions List.asString "u"
      (fun i => if i = 0 then some "db down" else none) 1 none {} [exDraft] =
      (⟨0, 1, ["Failed to save transactions: db down"]⟩, {}) :=
  ((C1_all_or_nothing List.asString "u"
    (fun i => if i = 0 then some "db down" else none) 1 none {} [exDraft]
    [] [(exDraft, [])] {} "db down" (by decide)).2 rfl (by decide)).1

/-- COUNTEREXAMPLE to C5: a batch rejected by validation can still
grow the category table - the claim that the stored dataset is exactly
as before the call is false. -/
theorem C5_counterexample :
    (TransactionProcessor.process_transactions List.asString "u" (fun _ => none)
      1 none {} [c5Draft]).1.success_count = 0 ∧
    (TransactionProcessor.process_transactions List.asString "u" (fun _ => none)
      1 none {} [c5Draft]).2.categories ≠ (({} : FM.DB)).categories :=
  ⟨by decide, by decide⟩

/-- CLAIM C5 (amended): the validation phase performs no transaction,
account, or credit-card write, so a batch rejected for a non-empty
error list leaves the stored transactions, accounts, and credit cards
exactly as they were; however the match-or-create entity resolution run
during validation may create categories, subcategories, and tags, so
those tables can grow even when the batch is rejected. -/
theorem C5_validation_frame (md5 : List Char → String) (freshId : String)
    (dbFailure : Nat → Option String) (user : Nat) (report : Option FM.ReportInfo)
    (db : FM.DB) (ts : List Draft) (errs : List String)
    (processed : List (Draft × List Nat)) (db1 : FM.DB)
    (h : TransactionProcessor.phase1 freshId user
      (report.bind (fun r => r.account)) (report.bind (fun r => r.creditCard))
      db 1 ts = (errs, processed, db1))
    (hne : errs ≠ []) :
    TransactionProcessor.process_transactions md5 freshId dbFailure user report db ts =
      (⟨0, errs.length, errs⟩, db1) ∧
    db1.transactions = db.transactions ∧
    db1.accounts = db.accounts ∧
    db1.creditCards = db.creditCards := by
  have hframe := phase1_frame freshId user (report.bind (fun r => r.account))
    (report.bind (fun r => r.creditCard)) ts db 1
  rw [h] at hframe
  dsimp only at hframe
  refine ⟨?_, hframe⟩
  unfold TransactionProcessor.process_transactions
  dsimp only
  rw [h]
  dsimp only
  rw [if_pos hne]

/-- Witness for C5 (amended): the rejected batch [c5Draft] leaves
transactions, accounts, and credit cards untouched - while the
counterexample shows its category table grew. -/
theorem C5_witness :
    TransactionProcessor.process_transactions List.asString "u" (fun _ => none)
      1 none {} [c5Draft] =
      (⟨0, 1, ["Transaction 1: installments_total must be greater than 0."]⟩, c5DB) ∧
    c5DB.transactions = (({} : FM.DB)).transactions ∧
    c5DB.accounts = (({} : FM.DB)).accounts ∧
    c5DB.creditCards = (({} : FM.DB)).creditCards :=
  C5_validation_frame List.asString "u" (fun _ => none) 1 none {} [c5Draft]
    ["Transaction 1: installments_total must be greater than 0."]
    [] c5DB (by decide) (by simp)

/-- Digit characters are injective below ten. -/
lemma decDigitChar_lt10_inj : ∀ a < 10, ∀ b < 10,
    decDigitChar a = decDigitChar b → a = b := by decide

/-- Every digit character is an ASCII digit. -/
lemma decDigitChar_isDigit (a : Nat) : isDigitChar (decDigitChar a) = true := by
  unfold decDigitChar
  split <;> rfl

/-- The fuel-based digit rendering agrees with Nat.digits when enough
fuel is supplied. -/
lemma renderNatAux_eq_digits : ∀ (n fuel : Nat), n ≤ fuel →
    renderNatAux fuel n = ((Nat.digits 10 n).reverse.map decDigitChar) := by
  intro n
  induction n using Nat.strong_induction_on with
  | _ n ih =>
    intro fuel hle
    match n, fuel with
    | 0, _ => simp [renderNatAux]
    | n + 1, 0 => omega
    | n + 1, fuel + 1 =>
      have hdiv : (n + 1) / 10 < n + 1 := Nat.div_lt_self (Nat.succ_pos n) (by norm_num)
      have := ih ((n + 1) / 10) hdiv fuel (by omega)
      rw [renderNatAux, this, Nat.digits_def' (by norm_num : 1 < 10) (Nat.succ_pos n)]
      simp

/-- Closed form of renderNat. -/
lemma renderNat_eq (n : Nat) :
    renderNat n = if n = 0 then ['0']
      else ((Nat.digits 10 n).reverse.map decDigitChar) := by
  unfold renderNat
  split
  · rfl
  · exact renderNatAux_eq_digits n n le_rfl

/-- Every character of renderNat is an ASCII digit. -/
lemma renderNat_digits (n : Nat) : ∀ c ∈ renderNat n, isDigitChar c = true := by
  rw [renderNat_eq]
  split
  · intro c hc
    simp at hc
    subst hc
    rfl
  · intro c hc
    simp at hc
    obtain ⟨d, _, hd⟩ := hc
    subst hd
    exact decDigitChar_isDigit d

/-- Mapping to digit characters is injective on digit lists. -/
lemma map_decDigitChar_inj : ∀ (l1 l2 : List Nat), (∀ x ∈ l1, x < 10) →
    (∀ x ∈ l2, x < 10) → l1.map decDigitChar = l2.map decDigitChar → l1 = l2 := by
  intro l1
  induction l1 with
  | nil =>
    intro l2 _ _ h
    cases l2 with
    | nil => rfl
    | cons c t => simp at h
  | cons c t ih =>
    intro l2 hb1 hb2 h
    cases l2 with
    | nil => simp at h
    | cons c2 t2 =>
      simp only [List.map_cons, List.cons.injEq] at h
      have hc := decDigitChar_lt10_inj c (hb1 c (by simp)) c2 (hb2 c2 (by simp)) h.1
      have ht := ih t2 (fun x hx => hb1 x (by simp [hx])) (fun x hx => hb2 x (by simp [hx])) h.2
      rw [hc, ht]

/-- renderNat is injective. -/
lemma renderNat_inj {a b : Nat} (h : renderNat a = renderNat b) : a = b := by
  rw [renderNat_eq, renderNat_eq] at h
  by_cases ha : a = 0 <;> by_cases hb : b = 0
  · omega
  · rw [if_pos ha, if_neg hb] at h
    have hne : Nat.digits 10 b ≠ [] := Nat.digits_ne_nil_iff_ne_zero.mpr hb
    have hlen := congrArg List.length h
    simp at hlen
    obtain ⟨d, hd⟩ := List.length_eq_one.mp hlen.symm
    rw [hd] at h
    simp at h
    have hd10 : d < 10 := Nat.digits_lt_base (by norm_num) (by rw [hd]; simp)
    have := decDigitChar_lt10_inj 0 (by norm_num) d hd10 h
    have hb0 := (Nat.ofDigits_digits 10 b).symm
    rw [hd, ← this] at hb0
    simp [Nat.ofDigits] at hb0
    omega
  · rw [if_neg ha, if_pos hb] at h
    have hne : Nat.digits 10 a ≠ [] := Nat.digits_ne_nil_iff_ne_zero.mpr ha
    have hlen := congrArg List.length h
    simp at hlen
    obtain ⟨d, hd⟩ := List.length_eq_one.mp hlen
    rw [hd] at h
    simp at h
    have hd10 : d < 10 := Nat.digits_lt_base (by norm_num) (by rw [hd]; simp)
    have := decDigitChar_lt10_inj d hd10 0 (by norm_num) h
    have ha0 := (Nat.ofDigits_digits 10 a).symm
    rw [hd, this] at ha0
    simp [Nat.ofDigits] at ha0
    omega
  · rw [if_neg ha, if_neg hb] at h
    have hrev := List.reverse_injective (map_decDigitChar_inj _ _
      (fun x hx => Nat.digits_lt_base (by norm_num) (by simpa using hx))
      (fun x hx => Nat.digits_lt_base (by norm_num) (by simpa using hx)) h)
    calc a = Nat.ofDigits 10 (Nat.digits 10 a) := (Nat.ofDigits_digits 10 a).symm
      _ = Nat.ofDigits 10 (Nat.digits 10 b) := by rw [hrev]
      _ = b := Nat.ofDigits_digits 10 b

/-- Splitting a concatenation at a separator absent from both prefixes
is unambiguous. -/
lemma append_sep_split {sep : Char} : ∀ (a1 a2 r1 r2 : List Char),
    sep ∉ a1 → sep ∉ a2 → a1 ++ sep :: r1 = a2 ++ sep :: r2 →
    a1 = a2 ∧ r1 = r2 := by
  intro a1
  induction a1 with
  | nil =>
    intro a2 r1 r2 _ h2 h
    cases a2 with
    | nil => simpa using h
    | cons c t =>
      simp only [List.nil_append, List.cons_append, List.cons.injEq] at h
      refine absurd ?_ h2
      rw [h.1]
      exact List.mem_cons_self c t
  | cons c t ih =>
    intro a2 r1 r2 h1 h2 h
    cases a2 with
    | nil =>
      simp only [List.cons_append, List.nil_append, List.cons.injEq] at h
      refine absurd ?_ h1
      rw [← h.1]
      exact List.mem_cons_self c t
    | cons c2 t2 =>
      simp only [List.cons_append, List.cons.injEq] at h
      obtain ⟨hc, ht⟩ := h
      obtain ⟨hta, htr⟩ := ih t2 r1 r2 (fun hm => h1 (List.mem_cons_of_mem c hm))
        (fun hm => h2 (List.mem_cons_of_mem c2 hm)) ht
      exact ⟨by rw [hc, hta], htr⟩

/-- Two-digit zero padding is injective below one hundred. -/
lemma pad2_inj {a b : Nat} (ha : a < 100) (hb : b < 100) (h : pad2 a = pad2 b) :
    a = b := by
  unfold pad2 at h
  simp only [List.cons.injEq, and_true] at h
  obtain ⟨h1, h2⟩ := h
  have e1 := decDigitChar_lt10_inj (a / 10 % 10) (Nat.mod_lt _ (by norm_num))
    (b / 10 % 10) (Nat.mod_lt _ (by norm_num)) h1
  have e2 := decDigitChar_lt10_inj (a % 10) (Nat.mod_lt _ (by norm_num))
    (b % 10) (Nat.mod_lt _ (by norm_num)) h2
  omega

/-- Characters of pad2 are ASCII digits. -/
lemma pad2_digits (n : Nat) : ∀ c ∈ pad2 n, isDigitChar c = true := by
  intro c hc
  unfold pad2 at hc
  simp at hc
  rcases hc with hc | hc <;> (subst hc; exact decDigitChar_isDigit _)

/-- Characters of pad4 are ASCII digits. -/
lemma pad4_digits (n : Nat) : ∀ c ∈ pad4 n, isDigitChar c = true := by
  intro c hc
  unfold pad4 at hc
  simp at hc
  rcases hc with hc | hc | hc | hc <;> (subst hc; exact decDigitChar_isDigit _)

/-- A character that is not an ASCII digit does not occur in the amount
rendering, apart from the sign and the decimal point. -/
lemma renderCents_mem (z : Int) (x : Char) (hx : isDigitChar x = false)
    (hm : x ≠ '-') (hd : x ≠ '.') : x ∉ renderCents z := by
  unfold renderCents
  intro hmem
  simp only [List.mem_append, List.mem_cons] at hmem
  rcases hmem with (hmem | hmem) | hmem | hmem
  · split at hmem <;> simp_all
  · have := renderNat_digits (z.natAbs / 100) x hmem
    rw [hx] at this
    cases this
  · exact hd hmem
  · have := pad2_digits (z.natAbs % 100) x hmem
    rw [hx] at this
    cases this

/-- The amount rendering is injective over the signed cents. -/
lemma renderCents_inj {x y : Int} (h : renderCents x = renderCents y) : x = y := by
  have hdot : ∀ (n : Nat), ('.' : Char) ∉ renderNat n := by
    intro n hmem
    have := renderNat_digits n '.' hmem
    cases this
  have hbody : ∀ {m n : Nat},
      renderNat m ++ '.' :: pad2 (x.natAbs % 100) = renderNat n ++ '.' :: pad2 (y.natAbs % 100) →
      m = n ∧ pad2 (x.natAbs % 100) = pad2 (y.natAbs % 100) := by
    intro m n heq
    obtain ⟨hm, hp⟩ := append_sep_split _ _ _ _ (hdot m) (hdot n) heq
    exact ⟨renderNat_inj hm, hp⟩
  unfold renderCents at h
  by_cases hx : x < 0 <;> by_cases hy : y < 0
  · rw [if_pos hx, if_pos hy] at h
    simp only [List.cons_append, List.nil_append, List.cons.injEq, true_and] at h
    obtain ⟨hm, hp⟩ := hbody h
    have := pad2_inj (Nat.mod_lt _ (by norm_num)) (Nat.mod_lt _ (by norm_num)) hp
    omega
  · rw [if_pos hx, if_neg hy] at h
    simp only [List.cons_append, List.nil_append] at h
    exfalso
    cases hr : renderNat (y.natAbs / 100) with
    | nil =>
      refine absurd hr ?_
      rw [renderNat_eq]
      split
      · simp
      · simpa using Nat.digits_ne_nil_iff_ne_zero.mpr (by assumption)
    | cons c t =>
      rw [hr] at h
      simp only [List.cons_append, List.cons.injEq] at h
      have hcdig := renderNat_digits (y.natAbs / 100) c (by rw [hr]; simp)
      rw [← h.1] at hcdig
      cases hcdig
  · rw [if_neg hx, if_pos hy] at h
    simp only [List.cons_append, List.nil_append] at h
    exfalso
    cases hr : renderNat (x.natAbs / 100) with
    | nil =>
      refine absurd hr ?_
      rw [renderNat_eq]
      split
      · simp
      · simpa using Nat.digits_ne_nil_iff_ne_zero.mpr (by assumption)
    | cons c t =>
      rw [hr] at h
      simp only [List.cons_append, List.cons.injEq] at h
      have hcdig := renderNat_digits (x.natAbs / 100) c (by rw [hr]; simp)
      rw [h.1] at hcdig
      cases hcdig
  · rw [if_neg hx, if_neg hy] at h
    simp only [List.nil_append] at h
    obtain ⟨hm, hp⟩ := hbody h
    have := pad2_inj (Nat.mod_lt _ (by norm_num)) (Nat.mod_lt _ (by norm_num)) hp
    omega

/-- No month has more than 31 days. -/
lemma daysInMonth_le (y m : Nat) : daysInMonth y m ≤ 31 := by
  unfold daysInMonth
  split
  · split <;> omega
  · split <;> omega

/-- A character that is neither an ASCII digit nor a dash does not
occur in the ISO date rendering. -/
lemma isoChars_mem (d : SimpleDate) (x : Char) (hx : isDigitChar x = false)
    (hm : x ≠ '-') : x ∉ isoChars d := by
  unfold isoChars
  intro hmem
  simp only [List.mem_append, List.mem_cons] at hmem
  rcases hmem with hmem | hmem | hmem | hmem | hmem
  · have := pad4_digits d.year x hmem
    rw [hx] at this
    cases this
  · exact hm hmem
  · have := pad2_digits d.month x hmem
    rw [hx] at this
    cases this
  · exact hm hmem
  · have := pad2_digits d.day x hmem
    rw [hx] at this
    cases this

/-- The ISO rendering is injective on valid dates. -/
lemma isoChars_inj {d1 d2 : SimpleDate} (h1 : validDate d1 = true)
    (h2 : validDate d2 = true) (h : isoChars d1 = isoChars d2) : d1 = d2 := by
  unfold validDate at h1 h2
  simp only [Bool.and_eq_true, decide_eq_true_eq] at h1 h2
  unfold isoChars pad4 pad2 at h
  simp only [List.cons_append, List.nil_append, List.cons.injEq, and_true] at h
  obtain ⟨e1, e2, e3, e4, -, e5, e6, -, e7, e8⟩ := h
  have d10 : ∀ (n : Nat), n % 10 < 10 := fun n => Nat.mod_lt _ (by norm_num)
  have f1 := decDigitChar_lt10_inj _ (d10 _) _ (d10 _) e1
  have f2 := decDigitChar_lt10_inj _ (d10 _) _ (d10 _) e2
  have f3 := decDigitChar_lt10_inj _ (d10 _) _ (d10 _) e3
  have f4 := decDigitChar_lt10_inj _ (d10 _) _ (d10 _) e4
  have f5 := decDigitChar_lt10_inj _ (d10 _) _ (d10 _) e5
  have f6 := decDigitChar_lt10_inj _ (d10 _) _ (d10 _) e6
  have f7 := decDigitChar_lt10_inj _ (d10 _) _ (d10 _) e7
  have f8 := decDigitChar_lt10_inj _ (d10 _) _ (d10 _) e8
  obtain ⟨y1, m1, dd1⟩ := d1
  obtain ⟨y2, m2, dd2⟩ := d2
  simp only at f1 f2 f3 f4 f5 f6 f7 f8 h1 h2
  have hb1 : daysInMonth y1 m1 ≤ 31 := daysInMonth_le y1 m1
  have hb2 : daysInMonth y2 m2 ≤ 31 := daysInMonth_le y2 m2
  have ha1 : y1 = 1000 * (y1 / 1000 % 10) + 100 * (y1 / 100 % 10) +
      10 * (y1 / 10 % 10) + y1 % 10 := by omega
  have ha2 : y2 = 1000 * (y2 / 1000 % 10) + 100 * (y2 / 100 % 10) +
      10 * (y2 / 10 % 10) + y2 % 10 := by omega
  have hy : y1 = y2 := by omega
  have hmn : m1 = m2 := by omega
  have hdd : dd1 = dd2 := by omega
  rw [hy, hmn, hdd]

/-- Strings with equal character data are equal. -/
lemma string_data_inj {s1 s2 : String} (h : s1.data = s2.data) : s1 = s2 := by
  cases s1
  cases s2
  simp only at h
  rw [h]

/-- The fingerprint input determines the amount, the effective
description (null and empty coincide), and the date. -/
lemma hashInput_inj {t u : Draft} (h1 : validDate t.occurredAt = true)
    (h2 : validDate u.occurredAt = true) (h : hashInput t = hashInput u) :
    t.amountCents = u.amountCents ∧
    t.description.getD "" = u.description.getD "" ∧
    t.occurredAt = u.occurredAt := by
  unfold hashInput at h
  have hp1 : ('|' : Char) ∉ renderCents t.amountCents :=
    renderCents_mem _ '|' (by decide) (by decide) (by decide)
  have hp2 : ('|' : Char) ∉ renderCents u.amountCents :=
    renderCents_mem _ '|' (by decide) (by decide) (by decide)
  obtain ⟨hA, hrest⟩ := append_sep_split _ _ _ _ hp1 hp2 h
  have hrev := congrArg List.reverse hrest
  simp only [List.reverse_append, List.reverse_cons, List.nil_append,
    List.append_assoc, List.singleton_append] at hrev
  have hq1 : ('|' : Char) ∉ (isoChars t.occurredAt).reverse := by
    rw [List.mem_reverse]
    exact isoChars_mem _ '|' (by decide) (by decide)
  have hq2 : ('|' : Char) ∉ (isoChars u.occurredAt).reverse := by
    rw [List.mem_reverse]
    exact isoChars_mem _ '|' (by decide) (by decide)
  obtain ⟨hI, hD⟩ := append_sep_split _ _ _ _ hq1 hq2 hrev
  refine ⟨renderCents_inj hA, ?_, ?_⟩
  · exact string_data_inj (List.reverse_injective hD)
  · exact isoChars_inj h1 h2 (List.reverse_injective hI)

/-- COUNTEREXAMPLE to C7: a null description and an empty-string
description are different field values with identical fingerprints, so
changing the description field need not change the fingerprint even
for an injective digest. -/
theorem C7_counterexample :
    Function.Injective List.asString ∧
    draftNullDesc.description ≠ draftEmptyDesc.description ∧
    draftNullDesc.amountCents = draftEmptyDesc.amountCents ∧
    draftNullDesc.occurredAt = draftEmptyDesc.occurredAt ∧
    calculate_hash List.asString draftNullDesc =
      calculate_hash List.asString draftEmptyDesc :=
  ⟨fun a b hab => congrArg String.data hab, by decide, rfl, rfl, by decide⟩

/-- CLAIM C7 (amended): Transaction.save always stores the fingerprint
just recomputed from the written row; the fingerprint is a function of
exactly (amount, effective description, date); and for valid dates and
an injective digest, transactions differing in the amount, in the
effective description (null and empty string coincide), or in the date
receive different fingerprints. -/
theorem C7_fingerprint (md5 : List Char → String)
    (hinj : Function.Injective md5) (freshId : String) (t u t' : Draft) :
    (Transaction.save md5 freshId t = .ok t' →
      t'.hash = some (calculate_hash md5 t')) ∧
    (t.amountCents = u.amountCents →
      t.description.getD "" = u.description.getD "" →
      t.occurredAt = u.occurredAt →
      calculate_hash md5 t = calculate_hash md5 u) ∧
    (validDate t.occurredAt = true → validDate u.occurredAt = true →
      (t.amountCents ≠ u.amountCents ∨
        t.description.getD "" ≠ u.description.getD "" ∨
        t.occurredAt ≠ u.occurredAt) →
      calculate_hash md5 t ≠ calculate_hash md5 u) := by
  refine ⟨?_, ?_, ?_⟩
  · intro hsave
    unfold Transaction.save at hsave
    simp only [bind, Except.bind] at hsave
    cases hfc : full_clean freshId t with
    | error e => rw [hfc] at hsave; exact absurd hsave (by simp)
    | ok t1 =>
      rw [hfc] at hsave
      have := Except.ok.inj hsave
      subst this
      rfl
  · intro ha hd ho
    unfold calculate_hash hashInput
    rw [ha, hd, ho]
  · intro hv1 hv2 hne heq
    have hhi := hinj heq
    obtain ⟨ea, ed, eo⟩ := hashInput_inj hv1 hv2 hhi
    rcases hne with hne | hne | hne
    · exact hne ea
    · exact hne ed
    · exact hne eo

/-- Witness for C7 at the identity-like digest: save stores the
recomputed fingerprint, equal triples hash equally, and an amount
change alters the fingerprint. -/
theorem C7_witness :
    exDraftSaved.hash = some (calculate_hash List.asString exDraftSaved) ∧
    calculate_hash List.asString exDraft = calculate_hash List.asString exDraft ∧
    calculate_hash List.asString exDraft ≠ calculate_hash List.asString draftNullDesc := by
  refine ⟨?_, ?_, ?_⟩
  · exact (C7_fingerprint List.asString (fun a b hab => congrArg String.data hab)
      "u" exDraft exDraft exDraftSaved).1 (by decide)
  · exact (C7_fingerprint List.asString (fun a b hab => congrArg String.data hab)
      "u" exDraft exDraft exDraftSaved).2.1 rfl rfl rfl
  · exact (C7_fingerprint List.asString (fun a b hab => congrArg String.data hab)
      "u" exDraft draftNullDesc exDraftSaved).2.2 (by decide) (by decide)
      (Or.inl (by decide))
